import Mathlib

/-!
Verification development for the helpdesk ticket intake engine.

Shallow embedding of:
* `src/spam_classifier.py`  (`SpamClassifier.classify`, `SpamClassifier.should_filter`)
* `src/routing_service.py`  (`RoutingService.apply_routing_rules`, `_rule_matches`,
  `_apply_rule_action`)
* `src/email_polling_service.py` (`EmailPollingService.process_email_to_ticket`)
* `src/main.py` (`create_or_continue_ticket` ticket-creation core,
  `get_ticket_sla_status` SLA core)

Conventions of the embedding:
* Python floats are modelled as rationals (`ℚ`); the score weights involved are
  exact binary-robust decimals, and no claim depends on float rounding.
* Python `str` is modelled as `String`; `.lower()` as `strLower` (all data
  in the claims is ASCII, where the two agree); timestamps are UTC seconds (`Int`).
* Calls to the Python `re` library on the classifier's fixed pattern lists are
  abstracted as an oracle (`ReOracle`): a function giving the result of
  `re.search(pattern, text, re.IGNORECASE)` and of the hyperlink `re.findall`
  count.  Theorems about the classifier quantify over the oracle; concrete
  evaluations use inputs (empty subject, or the single word "rolex", and the
  sender "alice@example.com" or "") on which none of the fixed regexes can match
  and no `http` link occurs, so the constant-false oracle is exact there.
* The Supabase store is modelled as an explicit `Db` record of tables threaded
  through the functions; row ids come from a counter `nextId`, inserts append.
* `Db.routingLog` is ghost instrumentation: `applyRoutingRules` records the
  ticket id it was invoked on, so that "the routing engine is triggered" is a
  statable predicate.  No source behaviour depends on it.
-/

/-! ### Python string primitives -/

/-- `listIsInfix needle hay` is true iff `needle` occurs contiguously in `hay`. -/
def listIsInfix (needle : List Char) : List Char → Bool
  | [] => needle.isEmpty
  | a :: as => needle.isPrefixOf (a :: as) || listIsInfix needle as

/-- Python `needle in haystack` substring test (used by the keyword scans). -/
def strContains (haystack needle : String) : Bool :=
  listIsInfix needle.toList haystack.toList

/-- Python `str.lower()` (ASCII; every string the engine lowers is ASCII). -/
def strLower (s : String) : String := ⟨s.data.map Char.toLower⟩

/-- Python slicing `s[:n]`. -/
def strTake (s : String) (n : Nat) : String := ⟨s.data.take n⟩

/-- Number of positions at which `pat` starts in the list; for a literal
pattern that cannot overlap itself (such as `unsubscribe`) this equals
`len(re.findall(pat, s))`. -/
def countOccurList (pat : List Char) : List Char → Nat
  | [] => 0
  | c :: rest => (if pat.isPrefixOf (c :: rest) then 1 else 0) + countOccurList pat rest

/-- `" ".join(parts)`. -/
def joinWithSpace : List String → String
  | [] => ""
  | [s] => s
  | s :: rest => s ++ " " ++ joinWithSpace rest

/-- The ASCII whitespace set of Python `str.strip()` / regex `\s`. -/
def pySpaceChar (c : Char) : Bool :=
  c == ' ' || c == '\t' || c == '\n' || c == '\r' || c == '\x0b' || c == '\x0c'

/-- Python `str.strip()` on a character list. -/
def pyStripList (l : List Char) : List Char :=
  ((l.dropWhile pySpaceChar).reverse.dropWhile pySpaceChar).reverse

/-- Python `str.strip()`. -/
def pyStrip (s : String) : String := ⟨pyStripList s.toList⟩

/-- Python `str.isupper()` restricted to ASCII: some cased character exists and
every cased character is upper case. -/
def pyIsUpper (s : String) : Bool :=
  s.toList.any (fun c => c.isAlpha) && s.toList.all (fun c => !c.isAlpha || c.isUpper)

/-- Number of keywords of `kws` occurring in `text`
(`sum(1 for keyword in kws if keyword in text)`). -/
def countMatches (kws : List String) (text : String) : Nat :=
  (kws.filter (fun k => strContains text k)).length

/-- Number of non-overlapping occurrences of the literal `pat` in `s`
(`len(re.findall(pat, s))` for a pattern with no metacharacters and no
self-overlap). -/
def countOccurrences (s pat : String) : Nat :=
  countOccurList pat.toList s.toList

/-- Python `min` on rationals. -/
def qmin (a b : ℚ) : ℚ := if a ≤ b then a else b

/-- Python `max` on rationals. -/
def qmax (a b : ℚ) : ℚ := if a ≤ b then b else a

/-! ### Classifier data (`src/spam_classifier.py`, constructor) -/

/-- `SpamClassifier.spam_keywords`. -/
def spamKeywords : List String :=
  [ "unsubscribe", "click here", "limited time", "act now", "urgent action",
    "winner", "congratulations", "free money", "claim your prize", "you won",
    "viagra", "cialis", "pharmacy", "pills", "medication",
    "nigerian prince", "inheritance", "lottery", "sweepstakes",
    "debt relief", "consolidate debt", "credit repair",
    "work from home", "make money", "get rich", "earn $",
    "meet singles", "dating", "find love",
    "enlarge", "weight loss", "lose weight fast",
    "rolex", "replica", "cheap watches",
    "bitcoin", "cryptocurrency investment", "crypto trading",
    "loan approval", "pre-approved", "guaranteed approval" ]

/-- `SpamClassifier.promotion_keywords`. -/
def promotionKeywords : List String :=
  [ "promotion", "special offer", "limited offer", "exclusive deal",
    "discount", "sale", "clearance", "save up to", "percent off",
    "coupon", "voucher", "promo code", "use code",
    "subscribe", "newsletter", "marketing", "advertisement",
    "sponsored", "ad", "commercial", "promotional",
    "unsubscribe from", "manage preferences", "email preferences",
    "view in browser", "view online", "web version",
    "this email was sent to", "you are receiving this",
    "update your preferences", "change email settings" ]

/-- `SpamClassifier.spam_subject_patterns` (regex source text, fed to the oracle). -/
def spamSubjectPatterns : List String :=
  [ "\\b(?:free|win|winner|prize|congratulations|urgent|act now)\\b",
    "\\b(?:viagra|cialis|pills|medication|pharmacy)\\b",
    "\\b(?:click here|click now|visit now)\\b",
    "\\$\\d+",
    "\\d+% (?:off|discount|sale)",
    "(?:re:?|fwd?:?)\\s*(?:fwd?:?|re:?)\\s*(?:fwd?:?|re:?)" ]

/-- `SpamClassifier.promotion_subject_patterns`. -/
def promotionSubjectPatterns : List String :=
  [ "\\b(?:sale|discount|offer|deal|promotion|clearance)\\b",
    "\\d+% (?:off|discount)",
    "free shipping",
    "limited time",
    "buy now" ]

/-- `SpamClassifier.suspicious_sender_patterns`. -/
def suspiciousSenderPatterns : List String :=
  [ "^[a-z0-9._%+-]+@(?:noreply|no-reply|donotreply|do-not-reply|mailer|marketing|promo|sales|offers|deals)",
    "@(?:mail|email|send|promo|deal|offer|sale|discount|marketing|ad|advert)\\." ]

/-- Oracle for the Python `re` library calls made by `classify`:
`search p t` is the truth of `re.search(p, t, re.IGNORECASE)`, and
`linkCount t` is `len(re.findall(URL_REGEX, t))`. -/
structure ReOracle where
  search : String → String → Bool
  linkCount : String → Nat

/-- The oracle used for concrete evaluations in this file.  Every concrete
email below has subject `""` or `"rolex"`, sender `""` or
`"alice@example.com"`, and link-free text, on which each of the fixed regexes
above fails and the URL regex finds nothing, so the constant answer is exact. -/
def noHitOracle : ReOracle := ⟨fun _ _ => false, fun _ => 0⟩

/-- A parsed inbound email (the dict produced by the mail transport).
Absent optional fields are the empty string (Python `dict.get(k, "")`);
the two header fields model the truthiness of
`_headers["List-Unsubscribe"]` / `_headers["List-Unsubscribe-Post"]`. -/
structure ParsedEmail where
  subject : String := ""
  from_email : String := ""
  body_text : String := ""
  body_html : String := ""
  message_id : String := ""
  in_reply_to : String := ""
  hdrListUnsubscribe : Bool := false
  hdrListUnsubscribePost : Bool := false
deriving DecidableEq

/-- The optional statistical-model prediction (`ml_spam_classifier.predict`);
`none` models the model being unavailable, disabled, or raising. -/
structure MlPrediction where
  is_spam : Bool
  is_promotion : Bool
  confidence : ℚ
  ml_score : ℚ
  method : String
deriving DecidableEq

/-- `ml_used = ml_prediction.get('method') == 'ml'`. -/
def mlUsed (ml : Option MlPrediction) : Bool :=
  match ml with
  | some p => p.method == "ml"
  | none => false

/-! ### Classifier signals (`SpamClassifier.classify`, lines 108-195) -/

def subjectL (e : ParsedEmail) : String := strLower e.subject
def fromL (e : ParsedEmail) : String := strLower e.from_email
def bodyTextL (e : ParsedEmail) : String := strLower e.body_text

/-- `full_text = f"{subject} {body_text} {body_html}".lower()` (the pieces are
already lower-cased, so the outer `.lower()` is the identity). -/
def fullTextL (e : ParsedEmail) : String :=
  subjectL e ++ " " ++ bodyTextL e ++ " " ++ strLower e.body_html

/-- `spam_matches_subject` (line 127). -/
def spamMatchesSubject (e : ParsedEmail) : Nat := countMatches spamKeywords (subjectL e)

/-- `spam_matches_body` (line 133). -/
def spamMatchesBody (e : ParsedEmail) : Nat := countMatches spamKeywords (fullTextL e)

/-- `promotion_matches_subject` (line 146). -/
def promoMatchesSubject (e : ParsedEmail) : Nat := countMatches promotionKeywords (subjectL e)

/-- `promotion_matches_body` (line 151). -/
def promoMatchesBody (e : ParsedEmail) : Nat := countMatches promotionKeywords (fullTextL e)

/-- First spam subject pattern matching (the loop at lines 139-143 breaks on the
first hit). -/
def spamPatternHit (o : ReOracle) (e : ParsedEmail) : Option String :=
  spamSubjectPatterns.find? (fun p => o.search p (subjectL e))

/-- First promotion subject pattern matching (lines 157-161). -/
def promoPatternHit (o : ReOracle) (e : ParsedEmail) : Option String :=
  promotionSubjectPatterns.find? (fun p => o.search p (subjectL e))

/-- First suspicious sender pattern matching (lines 164-169). -/
def senderPatternHit (o : ReOracle) (e : ParsedEmail) : Option String :=
  suspiciousSenderPatterns.find? (fun p => o.search p (fromL e))

/-- `link_count` (line 172). -/
def linkCountOf (o : ReOracle) (e : ParsedEmail) : Nat := o.linkCount (fullTextL e)

/-- `unsubscribe_count` (line 178): the pattern is the literal `unsubscribe`
and `full_text` is already lower-cased, so `re.IGNORECASE` is inert. -/
def unsubCount (e : ParsedEmail) : Nat := countOccurrences (fullTextL e) "unsubscribe"

/-- `len(body_text.strip()) < 50 and not parsed_email.get("in_reply_to")` (line 184). -/
def shortBody (e : ParsedEmail) : Bool :=
  decide ((pyStrip (bodyTextL e)).length < 50) && (e.in_reply_to == "")

/-- `subject and subject.isupper() and len(subject) > 10` (line 189), on the
already lower-cased subject. -/
def allCapsSubject (e : ParsedEmail) : Bool :=
  (subjectL e != "") && pyIsUpper (subjectL e) && decide ((subjectL e).length > 10)

/-- Truthiness of `headers.get("List-Unsubscribe") or headers.get("List-Unsubscribe-Post")`
(line 122). -/
def hasUnsubHeader (e : ParsedEmail) : Bool :=
  e.hdrListUnsubscribe || e.hdrListUnsubscribePost

/-- The rule-based spam score before clamping: the sum of the weighted signal
contributions of lines 126-191. -/
def ruleSpamScore (o : ReOracle) (e : ParsedEmail) : ℚ :=
  (if spamMatchesSubject e > 0 then 0.4 else 0)
  + (if spamMatchesBody e > 2 then 0.3 else 0)
  + (if (spamPatternHit o e).isSome then 0.2 else 0)
  + (if (senderPatternHit o e).isSome then 0.2 else 0)
  + (if linkCountOf o e > 5 then 0.15 else 0)
  + (if shortBody e then 0.1 else 0)
  + (if allCapsSubject e then 0.15 else 0)

/-- The rule-based promotion score before clamping (lines 120-181). -/
def rulePromoScore (o : ReOracle) (e : ParsedEmail) : ℚ :=
  (if hasUnsubHeader e then 0.3 else 0)
  + (if promoMatchesSubject e > 0 then 0.3 else 0)
  + (if promoMatchesBody e > 3 then 0.4 else 0)
  + (if (promoPatternHit o e).isSome then 0.2 else 0)
  + (if (senderPatternHit o e).isSome then 0.1 else 0)
  + (if unsubCount e > 0 then 0.2 else 0)

/-- The ML fusion applied to the clamped rule spam score (lines 198-225):
`combined = 0.6*ml_score + 0.4*rule_score`, then floored at `0.7` when the
model is confident and predicts spam. -/
def mlSpamTransform (ml : Option MlPrediction) (s : ℚ) : ℚ :=
  match ml with
  | some p =>
    if p.method == "ml" then
      let c := 0.6 * p.ml_score + 0.4 * s
      if 0.7 < p.confidence ∧ p.is_spam = true then qmax c 0.7 else c
    else s
  | none => s

/-- The ML fusion applied to the clamped rule promotion score (lines 211-225):
raised to the model confidence when the model predicts promotion, then floored
at `0.7` when the model is confident and predicts promotion but not spam
(the `elif` at line 224). -/
def mlPromoTransform (ml : Option MlPrediction) (q : ℚ) : ℚ :=
  match ml with
  | some p =>
    if p.method == "ml" then
      let q1 := if p.is_promotion then qmax q p.confidence else q
      if 0.7 < p.confidence ∧ p.is_spam = false ∧ p.is_promotion = true then qmax q1 0.7
      else q1
    else q
  | none => q

/-- `ClassificationResult`, the dict returned by `classify` (lines 249-260). -/
structure Classification where
  is_spam : Bool
  is_promotion : Bool
  is_ham : Bool
  confidence : ℚ
  reasons : List String
  category : String
  spam_score : ℚ
  promotion_score : ℚ
  ml_used : Bool
  ml_confidence : ℚ

/-- `SpamClassifier.classify` (lines 79-260).  The reason strings are built in
source accumulation order; the numeric interpolations use `toString` in place
of Python float formatting (no claim depends on their text beyond the literal
override reason). -/
def classify (o : ReOracle) (ml : Option MlPrediction) (e : ParsedEmail) : Classification :=
  let spamS := mlSpamTransform ml (qmin (ruleSpamScore o e) 1)
  let promoS := mlPromoTransform ml (qmin (rulePromoScore o e) 1)
  let mlConf : ℚ := match ml with
    | some p => if p.method == "ml" then p.confidence else 0
    | none => 0
  let reasons :=
    (if hasUnsubHeader e then ["Has List-Unsubscribe header (marketing email)"] else [])
    ++ (if spamMatchesSubject e > 0 then
          ["Spam keywords in subject (" ++ toString (spamMatchesSubject e) ++ " matches)"] else [])
    ++ (if spamMatchesBody e > 2 then
          ["Multiple spam keywords in body (" ++ toString (spamMatchesBody e) ++ " matches)"] else [])
    ++ (match spamPatternHit o e with
        | some p => ["Spam pattern in subject: " ++ p]
        | none => [])
    ++ (if promoMatchesSubject e > 0 then
          ["Promotion keywords in subject (" ++ toString (promoMatchesSubject e) ++ " matches)"] else [])
    ++ (if promoMatchesBody e > 3 then
          ["Multiple promotion keywords in body (" ++ toString (promoMatchesBody e) ++ " matches)"] else [])
    ++ (match promoPatternHit o e with
        | some p => ["Promotion pattern in subject: " ++ p]
        | none => [])
    ++ (match senderPatternHit o e with
        | some p => ["Suspicious sender pattern: " ++ p]
        | none => [])
    ++ (if linkCountOf o e > 5 then
          ["Excessive links (" ++ toString (linkCountOf o e) ++ " links)"] else [])
    ++ (if unsubCount e > 0 then ["Contains unsubscribe link"] else [])
    ++ (if shortBody e then ["Very short email body"] else [])
    ++ (if allCapsSubject e then ["Subject in all caps"] else [])
    ++ (if mlUsed ml then ["ML prediction combined with rule-based scoring"] else [])
  let isSpam0 : Bool := decide ((0.5 : ℚ) ≤ spamS)
  let isPromo0 : Bool := decide ((0.5 : ℚ) ≤ promoS) && !isSpam0
  let override : Bool := e.in_reply_to != ""
  let isSpam := if override then false else isSpam0
  let isPromo := if override then false else isPromo0
  let reasons' := if override then reasons ++ ["Reply to existing ticket (legitimate)"] else reasons
  let conf0 := if isSpam || isPromo then qmax spamS promoS else 1 - qmax spamS promoS
  { is_spam := isSpam
    is_promotion := isPromo
    is_ham := !isSpam && !isPromo
    confidence := if mlUsed ml ∧ conf0 < mlConf then mlConf else conf0
    reasons := reasons'
    category := if isSpam then "spam" else if isPromo then "promotion" else "ham"
    spam_score := spamS
    promotion_score := promoS
    ml_used := mlUsed ml
    ml_confidence := if mlUsed ml then mlConf else 0 }

/-- `SpamClassifier.should_filter` (lines 262-285). -/
def shouldFilter (o : ReOracle) (ml : Option MlPrediction) (e : ParsedEmail)
    (filterPromotions : Bool) : Bool :=
  let c := classify o ml e
  c.is_spam || (filterPromotions && c.is_promotion)

/-! ### The store (Supabase tables threaded as explicit state) -/

/-- A row of the `users` table (the columns the engine reads). -/
structure UserRow where
  id : Nat
  email : String
  role : String := "customer"
deriving DecidableEq

/-- A row of the `tickets` table. -/
structure TicketRow where
  id : Nat
  context : String := ""
  subject : String := ""
  status : String := "open"
  priority : String := "medium"
  sla_id : Option Nat := none
  user_id : Option Nat := none
  organization_id : Option String := none
  source : String := ""
  category : String := ""
  assigned_to : Option String := none
  created_at : Int := 0
  updated_at : Option Int := none
  first_response_at : Option Int := none
  resolved_at : Option Int := none
deriving DecidableEq

/-- A row of the `email_messages` table; `ticket_id` is nullable (the
filtered-email log entries have no ticket). -/
structure EmailMessageRow where
  id : Nat
  ticket_id : Option Nat := none
  email_account_id : String := ""
  message_id : String := ""
  in_reply_to : String := ""
  subject : String := ""
  body_text : String := ""
  from_email : String := ""
  status : String := ""
  direction : String := ""
deriving DecidableEq

/-- A row of the `email_threads` table. -/
structure ThreadRow where
  ticket_id : Nat
  email_message_id : Nat
  thread_position : Nat
deriving DecidableEq

/-- A row of the `messages` table. -/
structure MessageRow where
  ticket_id : Nat
  sender : String
  message : String
deriving DecidableEq

/-- A row of the `tags` table. -/
structure TagRow where
  id : Nat
  name : String
deriving DecidableEq

/-- A row of the `ticket_tags` join table. -/
structure TicketTagRow where
  ticket_id : Nat
  tag_id : Nat
deriving DecidableEq

/-- A row of the `routing_rules` table; the `conditions` JSON object is
flattened into its five optional groups (absent group = empty list). -/
structure RoutingRule where
  id : Nat
  name : String := ""
  organization_id : Option String := none
  priority : Int := 0
  is_active : Bool := true
  keywords : List String := []
  issue_types : List String := []
  tags : List String := []
  contexts : List String := []
  priorities : List String := []
  action_type : String
  action_value : String
deriving DecidableEq

/-- A row of the `sla_definitions` table. -/
structure SlaDef where
  id : Nat
  name : String := ""
  priority : String
  response_time_minutes : Int
  resolution_time_minutes : Int
  is_active : Bool := true
  created_at : Int := 0
deriving DecidableEq

/-- The store.  `nextId` is the id generator shared by all inserts;
`routingLog` is ghost instrumentation recording each invocation of
`applyRoutingRules` (the ticket id it was called on). -/
structure Db where
  users : List UserRow := []
  tickets : List TicketRow := []
  emailMessages : List EmailMessageRow := []
  emailThreads : List ThreadRow := []
  messages : List MessageRow := []
  routingRules : List RoutingRule := []
  tags : List TagRow := []
  ticketTags : List TicketTagRow := []
  slaDefs : List SlaDef := []
  nextId : Nat := 1
  routingLog : List Nat := []
deriving DecidableEq

/-- The configuration switches read by the email pipeline
(`config.Settings`, defaults as in `src/config.py`). -/
structure AppSettings where
  spamFilterEnabled : Bool := true
  filterPromotions : Bool := true
  logFiltered : Bool := false
deriving DecidableEq

/-! ### Routing engine (`src/routing_service.py`) -/

/-- The priority enum check of `_apply_rule_action` (line 211). -/
def validPriorityValue (p : String) : Bool :=
  p == "low" || p == "medium" || p == "high" || p == "urgent"

/-- `supabase.table("tickets").update(update_data).eq("id", ticket_id)`. -/
def updateTickets (tid : Nat) (g : TicketRow → TicketRow) (l : List TicketRow) : List TicketRow :=
  l.map (fun t => if t.id == tid then g t else t)

/-- `RoutingService._apply_rule_action` (lines 187-256): returns the success
flag and the updated store.  Every successful branch also writes `updated_at`. -/
def applyRuleAction (now : Int) (r : RoutingRule) (tid : Nat) (db : Db) : Bool × Db :=
  if r.action_type == "assign_to_agent" then
    if db.users.any (fun u =>
        u.email == strLower r.action_value && (u.role == "admin" || u.role == "super_admin")) then
      let g := fun (t : TicketRow) =>
        {t with assigned_to := some (strLower r.action_value),
                status := "human_assigned", updated_at := some now}
      (true, {db with tickets := updateTickets tid g db.tickets})
    else (false, db)
  else if r.action_type == "set_priority" then
    if validPriorityValue (strLower r.action_value) then
      let g := fun (t : TicketRow) =>
        {t with priority := strLower r.action_value, updated_at := some now}
      (true, {db with tickets := updateTickets tid g db.tickets})
    else (false, db)
  else if r.action_type == "add_tag" then
    match db.tags.find? (fun tg => tg.name == r.action_value) with
    | some tg =>
      let db1 := if (db.ticketTags.find?
            (fun tt => tt.ticket_id == tid && tt.tag_id == tg.id)).isSome then db
        else {db with ticketTags := db.ticketTags ++ [⟨tid, tg.id⟩]}
      let g := fun (t : TicketRow) => {t with updated_at := some now}
      (true, {db1 with tickets := updateTickets tid g db1.tickets})
    | none => (false, db)
  else if r.action_type == "set_category" then
    let g := fun (t : TicketRow) =>
      {t with category := r.action_value, updated_at := some now}
    (true, {db with tickets := updateTickets tid g db.tickets})
  else
    let g := fun (t : TicketRow) => {t with updated_at := some now}
    (true, {db with tickets := updateTickets tid g db.tickets})

/-- `RoutingService._rule_matches` (lines 122-185); the text arguments are the
pre-lowered search text, ticket category, context and priority. -/
def ruleMatches (db : Db) (searchText categoryL contextL priorityL : String)
    (ticketTagIds : List Nat) (r : RoutingRule) : Bool :=
  (r.keywords.isEmpty || r.keywords.any (fun k => strContains searchText (strLower k)))
  && (r.issue_types.isEmpty || r.issue_types.any (fun it =>
        strContains categoryL (strLower it) || strContains contextL (strLower it)))
  && (r.tags.isEmpty ||
        ((db.tags.filter (fun tg => r.tags.contains tg.name)).map (fun tg => tg.id)).any
          (fun i => ticketTagIds.contains i))
  && (r.contexts.isEmpty || (r.contexts.map strLower).contains contextL)
  && (r.priorities.isEmpty || (r.priorities.map strLower).contains priorityL)

/-- One entry of the `actions_taken` list built by `apply_routing_rules`. -/
structure ActionRec where
  rule_id : Nat
  action_type : String
  action_value : String
deriving DecidableEq

/-- The dict returned by `apply_routing_rules`. -/
structure RoutingResult where
  success : Bool
  error : Option String := none
  actions : List ActionRec := []
  rulesEvaluated : Nat := 0
  rulesMatched : Nat := 0
deriving DecidableEq

/-- Descending insertion by rule priority, modelling
`.order("priority", desc=True)` (tie order among equal priorities is not
specified by the store and no claim depends on it). -/
def insertByPriorityDesc (r : RoutingRule) : List RoutingRule → List RoutingRule
  | [] => [r]
  | x :: xs => if x.priority < r.priority then r :: x :: xs else x :: insertByPriorityDesc r xs

def sortByPriorityDesc (l : List RoutingRule) : List RoutingRule :=
  l.foldr insertByPriorityDesc []

/-- The rule-evaluation loop of `apply_routing_rules` (lines 83-109): every
rule is evaluated; a matching rule's action is applied and, on success,
appended to `actions_taken`. -/
def runRules (now : Int) (tid : Nat) (searchText categoryL contextL priorityL : String)
    (tagIds : List Nat) : List RoutingRule → Db → List ActionRec → List ActionRec × Db
  | [], db, acts => (acts, db)
  | r :: rs, db, acts =>
    if ruleMatches db searchText categoryL contextL priorityL tagIds r then
      let res := applyRuleAction now r tid db
      runRules now tid searchText categoryL contextL priorityL tagIds rs res.2
        (if res.1 then acts ++ [⟨r.id, r.action_type, r.action_value⟩] else acts)
    else
      runRules now tid searchText categoryL contextL priorityL tagIds rs db acts

/-- `RoutingService.apply_routing_rules` (lines 16-120).  The ticket snapshot
used for matching is read once, before any action runs, exactly as in the
source.  The invocation is recorded in the ghost `routingLog`. -/
def applyRoutingRules (now : Int) (tid : Nat) (orgId : Option String) (db : Db) :
    RoutingResult × Db :=
  let db0 : Db := {db with routingLog := db.routingLog ++ [tid]}
  match db0.tickets.find? (fun t => t.id == tid) with
  | none => ({success := false, error := some "Ticket not found"}, db0)
  | some ticket =>
    let active := db0.routingRules.filter (fun r => r.is_active)
    let inScope := match orgId with
      | some o => active.filter (fun r => r.organization_id == some o)
      | none => match ticket.organization_id with
        | some o => active.filter (fun r => r.organization_id == some o)
        | none => active
    let rules := sortByPriorityDesc inScope
    if rules.isEmpty then ({success := true}, db0)
    else
      let ticketText :=
        joinWithSpace ((db0.messages.filter (fun m => m.ticket_id == tid)).map
          (fun m => m.message))
      let searchText :=
        strLower ticket.subject ++ " " ++ strLower ticketText ++ " " ++ strLower ticket.context
      let tagIds := (db0.ticketTags.filter (fun tt => tt.ticket_id == tid)).map
        (fun tt => tt.tag_id)
      let res := runRules now tid searchText (strLower ticket.category) (strLower ticket.context)
        (strLower ticket.priority) tagIds rules db0 []
      ({success := true, actions := res.1, rulesEvaluated := rules.length,
        rulesMatched := res.1.length}, res.2)

/-! ### SLA tracker (`src/main.py`, `get_ticket_sla_status`, lines 1852-2018) -/

/-- Lookup of the bound definition: `.eq("id", sla_id).eq("is_active", True)`
(lines 1857-1867). -/
def slaById (i : Nat) (db : Db) : Option SlaDef :=
  db.slaDefs.find? (fun d => d.id == i && d.is_active)

/-- The element with the greatest `created_at` (first wins on ties), modelling
`.order("created_at", desc=True).limit(1)`. -/
def pickLatest : List SlaDef → Option SlaDef
  | [] => none
  | d :: ds =>
    match pickLatest ds with
    | none => some d
    | some b => if d.created_at < b.created_at then some b else some d

/-- The priority fallback query (lines 1870-1881). -/
def latestActiveSla (p : String) (db : Db) : Option SlaDef :=
  pickLatest (db.slaDefs.filter (fun d => d.priority == p && d.is_active))

/-- SLA resolution (lines 1852-1881): prefer the ticket's bound active
`sla_id`, else fall back to the newest active definition for its priority. -/
def resolveSla (t : TicketRow) (db : Db) : Option SlaDef :=
  match (match t.sla_id with | some i => slaById i db | none => none) with
  | some d => some d
  | none => latestActiveSla t.priority db

/-- One violation record of the SLA status payload. -/
structure SlaViolation where
  expected_time : Int
  actual_time : Option Int := none
  violation_minutes : Int
deriving DecidableEq

/-- The result of `get_ticket_sla_status`: either the structured
`sla_defined = False` payload (line 1884) or the full status. -/
inductive SlaStatus where
  | notDefined
  | defined (sla : SlaDef) (expectedResponse expectedResolution : Int)
      (responseViolation resolutionViolation : Option SlaViolation)
deriving DecidableEq

def SlaStatus.isDefined : SlaStatus → Bool
  | .notDefined => false
  | .defined _ _ _ _ _ => true

def SlaStatus.expectedResponse : SlaStatus → Option Int
  | .notDefined => none
  | .defined _ er _ _ _ => some er

def SlaStatus.respViolation : SlaStatus → Option SlaViolation
  | .notDefined => none
  | .defined _ _ _ rv _ => rv

def SlaStatus.resoViolation : SlaStatus → Option SlaViolation
  | .notDefined => none
  | .defined _ _ _ _ rv => rv

/-- The SLA computation of `get_ticket_sla_status` (lines 1889-2018).
Timestamps are UTC seconds; `created_at + timedelta(minutes=m)` becomes
`created_at + 60*m`, and `int(delta.total_seconds()/60)` becomes
`Int.tdiv _ 60` (both truncate toward zero). -/
def getTicketSlaStatus (t : TicketRow) (db : Db) (now : Int) : SlaStatus :=
  match resolveSla t db with
  | none => .notDefined
  | some d =>
    let frt := t.created_at + 60 * d.response_time_minutes
    let rst := t.created_at + 60 * d.resolution_time_minutes
    let respV := match t.first_response_at with
      | some fr => if frt < fr then some ⟨frt, some fr, (fr - frt).tdiv 60⟩ else none
      | none => if frt < now then some ⟨frt, none, (now - frt).tdiv 60⟩ else none
    let resoV := match t.resolved_at with
      | some ra => if rst < ra then some ⟨rst, some ra, (ra - rst).tdiv 60⟩ else none
      | none => if rst < now then some ⟨rst, none, (now - rst).tdiv 60⟩ else none
    .defined d frt rst respV resoV

/-! ### Email intake (`src/email_polling_service.py`, `process_email_to_ticket`) -/

/-- The registered-sender check (lines 36-46). -/
def isRegisteredUser (db : Db) (fromEmail : String) : Bool :=
  (fromEmail != "") && db.users.any (fun u => u.email == strLower fromEmail)

/-- The condition under which the email is dropped by the filter block
(lines 34-72). -/
def filteredOut (o : ReOracle) (ml : Option MlPrediction) (cfg : AppSettings)
    (db : Db) (e : ParsedEmail) : Bool :=
  cfg.spamFilterEnabled && !isRegisteredUser db e.from_email
    && shouldFilter o ml e cfg.filterPromotions

/-- The optional filtered-email log insert (lines 57-69): an
`email_messages` row with no ticket. -/
def logFilteredRow (acct : String) (e : ParsedEmail) (db : Db) : Db :=
  {db with
    emailMessages := db.emailMessages ++
      [{ id := db.nextId, ticket_id := none, email_account_id := acct,
         message_id := e.message_id, subject := e.subject,
         body_text := strTake e.body_text 500, from_email := e.from_email,
         status := "filtered", direction := "inbound" }]
    nextId := db.nextId + 1}

/-- The duplicate-prevention lookup (lines 77-88): only performed for a
truthy (non-empty) `message_id`. -/
def dedupLookup (db : Db) (e : ParsedEmail) : Option EmailMessageRow :=
  if e.message_id == "" then none
  else db.emailMessages.find? (fun m => m.message_id == e.message_id)

/-- The reply-resolution lookup (lines 93-105): the ticket of the stored
email message whose `message_id` equals this email's `in_reply_to`. -/
def resolveReply (db : Db) (inReplyTo : String) : Option Nat :=
  if inReplyTo == "" then none
  else (db.emailMessages.find? (fun m => m.message_id == inReplyTo)).bind
    (fun m => m.ticket_id)

/-- The subject cleanup
`re.sub(r'^(Re:|Fwd?:|RE:|FW?:)\s*', '', subject, flags=re.IGNORECASE).strip()`
(line 110).  The anchored pattern is replaced at most once, removing a single
leading `re:` / `fwd:` / `fw:` / `f:` (case-insensitive, in the regex's
alternation order) together with the whitespace after it. -/
def subjectDropLen (l : List Char) : Option Nat :=
  if (l.take 3).map Char.toLower == "re:".toList then some 3
  else if (l.take 4).map Char.toLower == "fwd:".toList then some 4
  else if (l.take 3).map Char.toLower == "fw:".toList then some 3
  else if (l.take 2).map Char.toLower == "f:".toList then some 2
  else none

def cleanSubject (s : String) : String :=
  let l := s.toList
  let rest := match subjectDropLen l with
    | some n => (l.drop n).dropWhile pySpaceChar
    | none => l
  ⟨pyStripList rest⟩

/-- The new-ticket insert of the email path (lines 108-137): context and
source `email`, default `medium` priority, subject from `cleanSubject` with
the `"Email from " + from_email` fallback, user linked by sender address.
No SLA is attached on this path. -/
def createTicketFromEmail (now : Int) (e : ParsedEmail) (db : Db) : Nat × Db :=
  let clean := cleanSubject e.subject
  let subj := if clean == "" then "Email from " ++ e.from_email else clean
  let uid := (db.users.find? (fun u => u.email == strLower e.from_email)).map (fun u => u.id)
  (db.nextId,
    {db with
      tickets := db.tickets ++
        [{ id := db.nextId, context := "email", subject := subj, status := "open",
           priority := "medium", user_id := uid, source := "email", created_at := now }]
      nextId := db.nextId + 1})

/-- The per-email inserts after a ticket is known (lines 143-189): the
`email_messages` row, the `email_threads` row at position `count + 1`, and the
`messages` row quoting the first 1000 characters of the body. -/
def appendEmailArtifacts (acct : String) (e : ParsedEmail) (tid : Nat) (db : Db) : Db :=
  let mid := db.nextId
  let db1 : Db :=
    {db with
      emailMessages := db.emailMessages ++
        [{ id := mid, ticket_id := some tid, email_account_id := acct,
           message_id := e.message_id, in_reply_to := e.in_reply_to,
           subject := e.subject, body_text := e.body_text,
           from_email := e.from_email, status := "received", direction := "inbound" }]
      nextId := db.nextId + 1}
  let cnt := ((db1.emailThreads.filter (fun th => th.ticket_id == tid)).length)
  let db2 : Db := {db1 with emailThreads := db1.emailThreads ++ [⟨tid, mid, cnt + 1⟩]}
  {db2 with messages := db2.messages ++
    [⟨tid, "customer",
      "Email received from " ++ e.from_email ++ ":\n\n" ++ strTake e.body_text 1000⟩]}

/-- `EmailPollingService.process_email_to_ticket` (lines 23-211).

Note on the `(none, db)` branch for a disabled spam filter: in the source,
`from_email` is only bound inside the `if settings.email_spam_filter_enabled:`
block (line 36); with the filter disabled, every path that survives the
duplicate check reads the unbound name (lines 115/124/152) before performing
any insert, raising `NameError`, which the outer handler turns into `None`.
Routing is applied (to the ticket just created) only when `in_reply_to` is
falsy (line 192), with the ticket's own organization as scope. -/
def processEmailToTicket (o : ReOracle) (ml : Option MlPrediction) (cfg : AppSettings)
    (now : Int) (acct : String) (e : ParsedEmail) (db : Db) : Option Nat × Db :=
  if filteredOut o ml cfg db e then
    (none, if cfg.logFiltered then logFilteredRow acct e db else db)
  else
    match dedupLookup db e with
    | some row => (row.ticket_id, db)
    | none =>
      if !cfg.spamFilterEnabled then (none, db)
      else
        match resolveReply db e.in_reply_to with
        | some tid => (some tid, appendEmailArtifacts acct e tid db)
        | none =>
          let created := createTicketFromEmail now e db
          let tid := created.1
          let db2 := appendEmailArtifacts acct e tid created.2
          let db3 :=
            if e.in_reply_to == "" then
              let org := (db2.tickets.find? (fun t => t.id == tid)).bind
                (fun t => t.organization_id)
              (applyRoutingRules now tid org db2).2
            else db2
          (some tid, db3)

/-! ### Web-form intake (`src/main.py`, `create_or_continue_ticket`, lines 760-860) -/

/-- The ticket-matching and creation core of the `POST /ticket` endpoint:
reuse an open ticket with the same context, subject and owner, else create one
(with the SLA auto-attached for its priority), apply routing only when the
created ticket has an organization, then record the customer message.  Returns
the ticket record the caller continues with (reloaded after routing when
routing ran and matched). -/
def createOrContinueTicket (now : Int) (ctx subj msg : String)
    (reqPriority : Option String) (userId : Nat) (db : Db) : TicketRow × Db :=
  match db.tickets.find? (fun t =>
      t.context == ctx && t.subject == subj && t.status == "open"
        && t.user_id == some userId) with
  | some t =>
    (t, {db with messages := db.messages ++ [⟨t.id, "customer", msg⟩]})
  | none =>
    let priority := match reqPriority with
      | some p => if validPriorityValue p then p else "medium"
      | none => "medium"
    let slaId := (latestActiveSla priority db).map (fun d => d.id)
    let tid := db.nextId
    let t : TicketRow :=
      { id := tid, context := ctx, subject := subj, status := "open",
        priority := priority, sla_id := slaId, user_id := some userId,
        source := "web", created_at := now }
    let db1 : Db := {db with tickets := db.tickets ++ [t], nextId := db.nextId + 1}
    let routed :=
      if t.organization_id.isSome then
        let db2 := (applyRoutingRules now tid t.organization_id db1).2
        (match db2.tickets.find? (fun x => x.id == tid) with
         | some t2 => t2
         | none => t, db2)
      else (t, db1)
    (routed.1, {routed.2 with messages := routed.2.messages ++ [⟨tid, "customer", msg⟩]})

/-! ### Concrete instances used by witnesses and counterexamples -/

/-- The default `config.Settings` switches. -/
def cfgDefault : AppSettings := {}

/-- An email that is a reply (unresolvable `in_reply_to`) whose content scores
0.7 on both spam and promotion under rule-only scoring: subject keyword
`rolex` (+0.4) and three spam keywords in the body (+0.3); List-Unsubscribe
header (+0.3) and four promotion keywords in the body (+0.4).  Neither the
subject `rolex` nor the sender `alice@example.com` can match any of the fixed
regex patterns, and the text has no link and no `unsubscribe` occurrence. -/
def exEmailReplySpammy : ParsedEmail :=
  { subject := "rolex", from_email := "alice@example.com",
    body_text := "viagra cialis sale discount coupon voucher",
    message_id := "m1", in_reply_to := "reply-id", hdrListUnsubscribe := true }

/-- The same content with no `in_reply_to` (the very-short-body signal then
also fires: 42 stripped characters, +0.1). -/
def exEmailFreshSpammy : ParsedEmail := { exEmailReplySpammy with in_reply_to := "" }

/-- An email with every field empty: no keyword matches, and the very-short-body
signal gives `spam_score = 0.1`. -/
def exEmailEmpty : ParsedEmail := {}

/-- One spam-keyword match (`cryptocurrency investment`), body of 51 characters:
the very-short-body signal is lost and `spam_score = 0`. -/
def exEmailCryptoLong : ParsedEmail :=
  { body_text := "cryptocurrency investment cryptocurrency investment" }

/-- Short body with one spam keyword. -/
def exEmailShortA : ParsedEmail := { body_text := "viagra" }

/-- Short body with two spam keywords. -/
def exEmailShortB : ParsedEmail := { body_text := "viagra cialis" }

/-- A store with one registered user. -/
def dbAlice : Db := { users := [⟨1, "alice@example.com", "customer"⟩] }

/-- An innocuous email with an empty `message_id` from the registered user. -/
def exEmailNoMid : ParsedEmail :=
  { subject := "help", from_email := "alice@example.com",
    body_text := "please help me with my order" }

/-- A store holding an already-processed email message (`dup-1`) of ticket 7,
plus the registered user. -/
def dbDup : Db :=
  { users := [⟨1, "alice@example.com", "customer"⟩],
    emailMessages := [{ id := 1, ticket_id := some 7, message_id := "dup-1",
                        status := "received", direction := "inbound" }],
    nextId := 2 }

/-- A duplicate delivery of `dup-1` by the registered user. -/
def exEmailDup : ParsedEmail :=
  { subject := "hi", from_email := "alice@example.com", body_text := "hello again",
    message_id := "dup-1" }

/-- Active unconditional rule, priority 5, setting priority `Low`. -/
def ruleSetLow : RoutingRule :=
  { id := 11, name := "low", priority := 5, action_type := "set_priority",
    action_value := "Low" }

/-- Active unconditional rule, priority 10, setting priority `Urgent`. -/
def ruleSetUrgent : RoutingRule :=
  { id := 12, name := "urgent", priority := 10, action_type := "set_priority",
    action_value := "Urgent" }

/-- A store with one ticket and the two `set_priority` rules (stored
lower-priority first). -/
def dbTwoRules : Db :=
  { tickets := [{ id := 1, subject := "s", context := "email" }],
    routingRules := [ruleSetLow, ruleSetUrgent], nextId := 2 }

/-- An urgent SLA definition: respond within 60 minutes. -/
def slaUrgent60 : SlaDef :=
  { id := 1, name := "u", priority := "urgent", response_time_minutes := 60,
    resolution_time_minutes := 240, created_at := 0 }

/-- A ticket created at time 0, bound to that definition, with no response yet. -/
def ticketUrgent : TicketRow := { id := 1, priority := "urgent", sla_id := some 1 }

def dbSlaUrgent : Db := { slaDefs := [slaUrgent60] }

/-- Three `high` definitions: an older active one (id 1, created 5), a newer
active one (id 2, created 10), and an inactive one (id 3, created 99). -/
def slaHighOld : SlaDef :=
  { id := 1, name := "h1", priority := "high", response_time_minutes := 30,
    resolution_time_minutes := 60, created_at := 5 }
def slaHighNew : SlaDef :=
  { id := 2, name := "h2", priority := "high", response_time_minutes := 15,
    resolution_time_minutes := 45, created_at := 10 }
def slaHighOff : SlaDef :=
  { id := 3, name := "h3", priority := "high", response_time_minutes := 1,
    resolution_time_minutes := 2, is_active := false, created_at := 99 }

def dbSlaMulti : Db := { slaDefs := [slaHighOld, slaHighNew, slaHighOff] }

def ticketBoundHigh : TicketRow := { id := 1, priority := "high", sla_id := some 1 }
def ticketFreeHigh : TicketRow := { id := 2, priority := "high" }
def ticketBoundOff : TicketRow := { id := 3, priority := "high", sla_id := some 3 }
def ticketFreeUrgent : TicketRow := { id := 4, priority := "urgent" }

/-- A store with the registered user and one unconditional urgent rule. -/
def dbRuleAlice : Db :=
  { users := [⟨1, "alice@example.com", "customer"⟩],
    routingRules := [ruleSetUrgent] }

/-- An email whose `in_reply_to` is set but resolves to no stored message. -/
def exEmailDanglingReply : ParsedEmail :=
  { subject := "x", from_email := "alice@example.com",
    body_text := "hello there everyone", message_id := "m9", in_reply_to := "nope" }

/-- The same email without `in_reply_to`. -/
def exEmailNoReply : ParsedEmail :=
  { subject := "x", from_email := "alice@example.com",
    body_text := "hello there everyone", message_id := "m10" }

/-- A fresh email whose subject carries two reply/forward markers. -/
def exEmailRefwd : ParsedEmail :=
  { subject := "Re: Fwd: X", from_email := "alice@example.com",
    body_text := "see below", message_id := "m8" }

/-- A store holding the message `orig-1` of ticket 7. -/
def dbReplyKnown : Db :=
  { emailMessages := [{ id := 1, ticket_id := some 7, message_id := "orig-1",
                        status := "received", direction := "inbound" }],
    nextId := 2 }

/-- A reply to the stored message `orig-1`. -/
def exEmailKnownReply : ParsedEmail :=
  { subject := "rolex", from_email := "alice@example.com",
    body_text := "viagra cialis sale discount coupon voucher",
    message_id := "m2", in_reply_to := "orig-1", hdrListUnsubscribe := true }

/-! ### Helper lemmas: classifier -/

/-- The returned `spam_score` is the ML fusion of the clamped rule score. -/
theorem classify_spam_score (o : ReOracle) (ml : Option MlPrediction) (e : ParsedEmail) :
    (classify o ml e).spam_score = mlSpamTransform ml (qmin (ruleSpamScore o e) 1) := rfl

/-- The returned `promotion_score` is the ML fusion of the clamped rule score. -/
theorem classify_promotion_score (o : ReOracle) (ml : Option MlPrediction) (e : ParsedEmail) :
    (classify o ml e).promotion_score = mlPromoTransform ml (qmin (rulePromoScore o e) 1) := rfl

/-- The `is_spam` decision: threshold test, overridden for replies. -/
theorem classify_is_spam (o : ReOracle) (ml : Option MlPrediction) (e : ParsedEmail) :
    (classify o ml e).is_spam
      = if e.in_reply_to != "" then false
        else decide ((0.5 : ℚ) ≤ (classify o ml e).spam_score) := rfl

/-- The `is_promotion` decision: threshold test minus spam precedence,
overridden for replies. -/
theorem classify_is_promotion (o : ReOracle) (ml : Option MlPrediction) (e : ParsedEmail) :
    (classify o ml e).is_promotion
      = if e.in_reply_to != "" then false
        else (decide ((0.5 : ℚ) ≤ (classify o ml e).promotion_score)
          && !(decide ((0.5 : ℚ) ≤ (classify o ml e).spam_score))) := rfl

/-- Any email with a truthy `in_reply_to` is forced to ham, with the override
reason recorded. -/
theorem classify_reply_forced_ham (o : ReOracle) (ml : Option MlPrediction)
    (e : ParsedEmail) (h : e.in_reply_to ≠ "") :
    (classify o ml e).is_spam = false ∧ (classify o ml e).is_promotion = false ∧
      "Reply to existing ticket (legitimate)" ∈ (classify o ml e).reasons := by
  have hb : (e.in_reply_to != "") = true := by simpa [bne_iff_ne] using h
  refine ⟨?_, ?_, ?_⟩
  · rw [classify_is_spam, hb]; rfl
  · rw [classify_is_promotion, hb]; rfl
  · show _ ∈ (classify o ml e).reasons
    simp only [classify, hb, if_true]
    exact List.mem_append_right _ (List.mem_singleton.mpr rfl)

/-- `should_filter` is false whenever `in_reply_to` is truthy. -/
theorem shouldFilter_reply_false (o : ReOracle) (ml : Option MlPrediction)
    (e : ParsedEmail) (fp : Bool) (h : e.in_reply_to ≠ "") :
    shouldFilter o ml e fp = false := by
  have hc := classify_reply_forced_ham o ml e h
  simp [shouldFilter, hc.1, hc.2.1]

theorem qmin_one_mono {a b : ℚ} (h : a ≤ b) : qmin a 1 ≤ qmin b 1 := by
  unfold qmin; split_ifs <;> linarith

theorem qmax_mono_left {a b c : ℚ} (h : a ≤ b) : qmax a c ≤ qmax b c := by
  unfold qmax; split_ifs <;> linarith

/-- The ML spam fusion is monotone in the rule-based score. -/
theorem mlSpamTransform_mono (ml : Option MlPrediction) {a b : ℚ} (h : a ≤ b) :
    mlSpamTransform ml a ≤ mlSpamTransform ml b := by
  cases ml with
  | none => simpa [mlSpamTransform] using h
  | some p =>
    simp only [mlSpamTransform]
    by_cases hm : (p.method == "ml") = true
    · simp only [hm, if_true]
      have hc : 0.6 * p.ml_score + 0.4 * a ≤ 0.6 * p.ml_score + 0.4 * b := by linarith
      split_ifs
      · exact qmax_mono_left hc
      · exact hc
    · simp only [Bool.not_eq_true] at hm
      simpa [hm] using h

/-- The rule-based spam score is monotone in the two keyword-match counts when
the remaining spam signals are unchanged. -/
theorem ruleSpamScore_mono (o : ReOracle) (e e' : ParsedEmail)
    (h1 : spamMatchesSubject e ≤ spamMatchesSubject e')
    (h2 : spamMatchesBody e ≤ spamMatchesBody e')
    (h3 : (spamPatternHit o e).isSome = (spamPatternHit o e').isSome)
    (h4 : (senderPatternHit o e).isSome = (senderPatternHit o e').isSome)
    (h5 : linkCountOf o e = linkCountOf o e')
    (h6 : shortBody e = shortBody e')
    (h7 : allCapsSubject e = allCapsSubject e') :
    ruleSpamScore o e ≤ ruleSpamScore o e' := by
  unfold ruleSpamScore
  rw [h3, h4, h5, h6, h7]
  have t1 : (if spamMatchesSubject e > 0 then (0.4 : ℚ) else 0)
      ≤ (if spamMatchesSubject e' > 0 then (0.4 : ℚ) else 0) := by
    by_cases hA : spamMatchesSubject e > 0
    · have hB : spamMatchesSubject e' > 0 := lt_of_lt_of_le hA h1
      simp [hA, hB]
    · rw [if_neg hA]; split_ifs <;> norm_num
  have t2 : (if spamMatchesBody e > 2 then (0.3 : ℚ) else 0)
      ≤ (if spamMatchesBody e' > 2 then (0.3 : ℚ) else 0) := by
    by_cases hA : spamMatchesBody e > 2
    · have hB : spamMatchesBody e' > 2 := lt_of_lt_of_le hA h2
      simp [hA, hB]
    · rw [if_neg hA]; split_ifs <;> norm_num
  exact add_le_add (add_le_add (add_le_add (add_le_add (add_le_add
    (add_le_add t1 t2) le_rfl) le_rfl) le_rfl) le_rfl) le_rfl

/-! ### Claims C3, C10, C4, C5 (classifier) -/

/-- Claim C3: for every parsed email that is a reply to a known ticket
(`in_reply_to` set and resolving, through the email-message store, to an
existing ticket), `classify` returns `is_spam = false` and
`is_promotion = false` regardless of the computed scores, and appends a reason
string noting the override. -/
theorem claim_C3_reply_override (o : ReOracle) (ml : Option MlPrediction)
    (e : ParsedEmail) (db : Db) (tkt : Nat)
    (hset : e.in_reply_to ≠ "")
    (hresolves : resolveReply db e.in_reply_to = some tkt) :
    (classify o ml e).is_spam = false ∧ (classify o ml e).is_promotion = false ∧
      "Reply to existing ticket (legitimate)" ∈ (classify o ml e).reasons :=
  classify_reply_forced_ham o ml e hset

/-- Witness for C3: a reply to the stored message `orig-1` (ticket 7) whose
content scores 0.7 on spam and promotion is still classified as ham, with the
override reason present. -/
theorem claim_C3_witness :
    exEmailKnownReply.in_reply_to ≠ "" ∧
    resolveReply dbReplyKnown exEmailKnownReply.in_reply_to = some 7 ∧
    (classify noHitOracle none exEmailKnownReply).is_spam = false ∧
    (classify noHitOracle none exEmailKnownReply).is_promotion = false ∧
    "Reply to existing ticket (legitimate)" ∈ (classify noHitOracle none exEmailKnownReply).reasons := by
  have h := claim_C3_reply_override noHitOracle none exEmailKnownReply dbReplyKnown 7
    (by decide) (by decide)
  exact ⟨by decide, by decide, h.1, h.2.1, h.2.2⟩

/-- Claim C10: for every parsed email whose `in_reply_to` is any non-empty
string — resolvable or not — `classify` forces `is_spam = is_promotion = false`
and `should_filter` returns false, for every promotion-filter setting, oracle
answer and model prediction; no resolvability check is performed. -/
theorem claim_C10_unresolvable_reply_never_filtered (o : ReOracle)
    (ml : Option MlPrediction) (e : ParsedEmail) (fp : Bool)
    (h : e.in_reply_to ≠ "") :
    (classify o ml e).is_spam = false ∧ (classify o ml e).is_promotion = false ∧
      shouldFilter o ml e fp = false := by
  have hc := classify_reply_forced_ham o ml e h
  exact ⟨hc.1, hc.2.1, shouldFilter_reply_false o ml e fp h⟩

/-- Witness for C10: the spammy reply email's `in_reply_to` (`reply-id`)
resolves to nothing in the empty store, yet it is never filtered, even with
promotion filtering on. -/
theorem claim_C10_witness :
    exEmailReplySpammy.in_reply_to ≠ "" ∧
    resolveReply {} exEmailReplySpammy.in_reply_to = none ∧
    shouldFilter noHitOracle none exEmailReplySpammy true = false := by
  have h := claim_C10_unresolvable_reply_never_filtered noHitOracle none
    exEmailReplySpammy true (by decide)
  exact ⟨by decide, by decide, h.2.2⟩

/-- Counterexample to claim C4 as stated: `exEmailReplySpammy` has final
`spam_score = promotion_score = 0.7 ≥ 0.5`, yet `classify` returns
`is_spam = false` (and `is_promotion = false`), because the reply override
(line 234) runs after the threshold decision. -/
theorem claim_C4_counterexample :
    (0.5 : ℚ) ≤ (classify noHitOracle none exEmailReplySpammy).spam_score ∧
    (0.5 : ℚ) ≤ (classify noHitOracle none exEmailReplySpammy).promotion_score ∧
    (classify noHitOracle none exEmailReplySpammy).is_spam = false := by
  have h1 : spamMatchesSubject exEmailReplySpammy = 1 := by decide
  have h2 : spamMatchesBody exEmailReplySpammy = 3 := by decide
  have h3 : spamPatternHit noHitOracle exEmailReplySpammy = none := by decide
  have h4 : senderPatternHit noHitOracle exEmailReplySpammy = none := by decide
  have h5 : linkCountOf noHitOracle exEmailReplySpammy = 0 := by decide
  have h6 : shortBody exEmailReplySpammy = false := by decide
  have h7 : allCapsSubject exEmailReplySpammy = false := by decide
  have h8 : promoMatchesSubject exEmailReplySpammy = 0 := by decide
  have h9 : promoMatchesBody exEmailReplySpammy = 4 := by decide
  have h10 : promoPatternHit noHitOracle exEmailReplySpammy = none := by decide
  have h11 : unsubCount exEmailReplySpammy = 0 := by decide
  have h12 : hasUnsubHeader exEmailReplySpammy = true := by decide
  refine ⟨?_, ?_, ?_⟩ <;>
    norm_num [classify_spam_score, classify_promotion_score, classify_is_spam,
      mlSpamTransform, mlPromoTransform, qmin, qmax, ruleSpamScore, rulePromoScore,
      h1, h2, h3, h4, h5, h6, h7, h8, h9, h10, h11, h12] <;> decide

/-- Claim C4, amended: for every parsed email whose `in_reply_to` is empty
(not a reply) and whose final spam and promotion scores are both at least 0.5,
`classify` returns `is_spam = true` and `is_promotion = false` — spam takes
precedence, ties resolve to spam.  (The original claim omitted the reply
condition; the reply override forces both flags to false, see the
counterexample.) -/
theorem claim_C4_spam_precedence (o : ReOracle) (ml : Option MlPrediction)
    (e : ParsedEmail) (h0 : e.in_reply_to = "")
    (h1 : (0.5 : ℚ) ≤ (classify o ml e).spam_score)
    (h2 : (0.5 : ℚ) ≤ (classify o ml e).promotion_score) :
    (classify o ml e).is_spam = true ∧ (classify o ml e).is_promotion = false := by
  have hb : (e.in_reply_to != "") = false := by simp [h0]
  constructor
  · rw [classify_is_spam, hb]
    simpa using h1
  · rw [classify_is_promotion, hb]
    simp [h1, h2]

/-- Witness for the amended C4: the same spammy content without `in_reply_to`
scores 0.8 (spam) and 0.7 (promotion) and is classified spam, not promotion. -/
theorem claim_C4_witness :
    exEmailFreshSpammy.in_reply_to = "" ∧
    (0.5 : ℚ) ≤ (classify noHitOracle none exEmailFreshSpammy).spam_score ∧
    (0.5 : ℚ) ≤ (classify noHitOracle none exEmailFreshSpammy).promotion_score ∧
    (classify noHitOracle none exEmailFreshSpammy).is_spam = true ∧
    (classify noHitOracle none exEmailFreshSpammy).is_promotion = false := by
  have h1 : spamMatchesSubject exEmailFreshSpammy = 1 := by decide
  have h2 : spamMatchesBody exEmailFreshSpammy = 3 := by decide
  have h3 : spamPatternHit noHitOracle exEmailFreshSpammy = none := by decide
  have h4 : senderPatternHit noHitOracle exEmailFreshSpammy = none := by decide
  have h5 : linkCountOf noHitOracle exEmailFreshSpammy = 0 := by decide
  have h6 : shortBody exEmailFreshSpammy = true := by decide
  have h7 : allCapsSubject exEmailFreshSpammy = false := by decide
  have h8 : promoMatchesSubject exEmailFreshSpammy = 0 := by decide
  have h9 : promoMatchesBody exEmailFreshSpammy = 4 := by decide
  have h10 : promoPatternHit noHitOracle exEmailFreshSpammy = none := by decide
  have h11 : unsubCount exEmailFreshSpammy = 0 := by decide
  have h12 : hasUnsubHeader exEmailFreshSpammy = true := by decide
  have hs : (0.5 : ℚ) ≤ (classify noHitOracle none exEmailFreshSpammy).spam_score := by
    norm_num [classify_spam_score, mlSpamTransform, qmin, ruleSpamScore,
      h1, h2, h3, h4, h5, h6, h7]
  have hp : (0.5 : ℚ) ≤ (classify noHitOracle none exEmailFreshSpammy).promotion_score := by
    norm_num [classify_promotion_score, mlPromoTransform, qmin, qmax, rulePromoScore,
      h4, h8, h9, h10, h11, h12]
  have h := claim_C4_spam_precedence noHitOracle none exEmailFreshSpammy rfl hs hp
  exact ⟨rfl, hs, hp, h.1, h.2⟩

/-- Counterexample to claim C5 as stated: going from the empty email to one
whose body is `cryptocurrency investment cryptocurrency investment` adds a
spam-keyword match (0 to 1 matched keywords) yet the spam score drops from 0.1
to 0, because lengthening the body past 50 characters loses the
very-short-body signal. -/
theorem claim_C5_counterexample :
    spamMatchesSubject exEmailEmpty ≤ spamMatchesSubject exEmailCryptoLong ∧
    spamMatchesBody exEmailEmpty < spamMatchesBody exEmailCryptoLong ∧
    (classify noHitOracle none exEmailCryptoLong).spam_score
      < (classify noHitOracle none exEmailEmpty).spam_score := by
  have ha : spamMatchesBody exEmailEmpty = 0 := by decide
  have hb : spamMatchesBody exEmailCryptoLong = 1 := by decide
  have hc : spamMatchesSubject exEmailEmpty = 0 := by decide
  have hd : spamMatchesSubject exEmailCryptoLong = 0 := by decide
  have he : shortBody exEmailEmpty = true := by decide
  have hf : shortBody exEmailCryptoLong = false := by decide
  have hg : spamPatternHit noHitOracle exEmailEmpty = none := by decide
  have hh : spamPatternHit noHitOracle exEmailCryptoLong = none := by decide
  have hi : senderPatternHit noHitOracle exEmailEmpty = none := by decide
  have hj : senderPatternHit noHitOracle exEmailCryptoLong = none := by decide
  have hk : linkCountOf noHitOracle exEmailEmpty = 0 := by decide
  have hl : linkCountOf noHitOracle exEmailCryptoLong = 0 := by decide
  have hm : allCapsSubject exEmailEmpty = false := by decide
  have hn : allCapsSubject exEmailCryptoLong = false := by decide
  refine ⟨by omega, by omega, ?_⟩
  norm_num [classify_spam_score, mlSpamTransform, qmin, ruleSpamScore,
    ha, hb, hc, hd, he, hf, hg, hh, hi, hj, hk, hl, hm, hn]

/-- Claim C5, amended: strictly more spam-keyword matches never decrease the
spam score *provided the other spam signals are unchanged* — in particular the
modification must not move the stripped body length across the 50-character
threshold (the very-short-body signal), nor change the pattern, sender, link
or all-caps signals.  (As stated the claim is false: adding a keyword can
lengthen a short body and lose its 0.1 contribution, see the counterexample.) -/
theorem claim_C5_keyword_monotone (o : ReOracle) (ml : Option MlPrediction)
    (e e' : ParsedEmail)
    (h1 : spamMatchesSubject e ≤ spamMatchesSubject e')
    (h2 : spamMatchesBody e ≤ spamMatchesBody e')
    (h3 : (spamPatternHit o e).isSome = (spamPatternHit o e').isSome)
    (h4 : (senderPatternHit o e).isSome = (senderPatternHit o e').isSome)
    (h5 : linkCountOf o e = linkCountOf o e')
    (h6 : shortBody e = shortBody e')
    (h7 : allCapsSubject e = allCapsSubject e') :
    (classify o ml e).spam_score ≤ (classify o ml e').spam_score := by
  rw [classify_spam_score, classify_spam_score]
  exact mlSpamTransform_mono ml
    (qmin_one_mono (ruleSpamScore_mono o e e' h1 h2 h3 h4 h5 h6 h7))

/-- Witness for the amended C5: adding the keyword `cialis` to the short body
`viagra` (both bodies stay below 50 characters) raises the match count and
does not decrease the spam score. -/
theorem claim_C5_witness :
    spamMatchesBody exEmailShortA < spamMatchesBody exEmailShortB ∧
    shortBody exEmailShortA = shortBody exEmailShortB ∧
    (classify noHitOracle none exEmailShortA).spam_score
      ≤ (classify noHitOracle none exEmailShortB).spam_score := by
  refine ⟨by decide, by decide, ?_⟩
  exact claim_C5_keyword_monotone noHitOracle none exEmailShortA exEmailShortB
    (by decide) (by decide) (by decide) (by decide) (by decide) (by decide) (by decide)

/-! ### Helper lemmas: list search and latest-definition choice -/

/-- `find?` returns the unique element satisfying the predicate. -/
theorem find?_eq_some_of_unique {α : Type} {p : α → Bool} {l : List α} {a : α}
    (ha : a ∈ l) (hpa : p a = true) (hu : ∀ b ∈ l, p b = true → b = a) :
    l.find? p = some a := by
  have hs : (l.find? p).isSome := List.find?_isSome.mpr ⟨a, ha, hpa⟩
  obtain ⟨b, hb⟩ := Option.isSome_iff_exists.mp hs
  have hpb := List.find?_some hb
  have hmem := List.mem_of_find?_eq_some hb
  rw [hb, hu b hmem hpb]

theorem pickLatest_eq_none {l : List SlaDef} : pickLatest l = none ↔ l = [] := by
  cases l with
  | nil => simp [pickLatest]
  | cons d ds =>
    simp only [pickLatest]
    cases h : pickLatest ds with
    | none => simp
    | some b =>
      dsimp only
      split_ifs <;> simp

theorem pickLatest_mem : ∀ {l : List SlaDef} {b : SlaDef},
    pickLatest l = some b → b ∈ l := by
  intro l
  induction l with
  | nil => intro b h; simp [pickLatest] at h
  | cons d ds ih =>
    intro b h
    simp only [pickLatest] at h
    cases hd : pickLatest ds with
    | none =>
      rw [hd] at h
      cases h
      exact List.mem_cons_self _ _
    | some c =>
      rw [hd] at h
      dsimp only at h
      split_ifs at h
      · cases h
        exact List.mem_cons_of_mem _ (ih hd)
      · cases h
        exact List.mem_cons_self _ _

theorem pickLatest_le : ∀ {l : List SlaDef} {b : SlaDef},
    pickLatest l = some b → ∀ x ∈ l, x.created_at ≤ b.created_at := by
  intro l
  induction l with
  | nil => intro b _ x hx; simp at hx
  | cons d ds ih =>
    intro b h x hx
    simp only [pickLatest] at h
    cases hd : pickLatest ds with
    | none =>
      rw [hd] at h
      cases h
      have : ds = [] := pickLatest_eq_none.mp hd
      subst this
      rcases List.mem_cons.mp hx with rfl | hx2
      · exact le_rfl
      · simp at hx2
    | some c =>
      rw [hd] at h
      dsimp only at h
      split_ifs at h with hlt
      · cases h
        rcases List.mem_cons.mp hx with rfl | hx2
        · exact le_of_lt hlt
        · exact ih hd x hx2
      · cases h
        rcases List.mem_cons.mp hx with rfl | hx2
        · exact le_rfl
        · exact le_trans (ih hd x hx2) (le_of_not_lt hlt)

/-- With a strict maximum of `created_at`, `pickLatest` returns it. -/
theorem pickLatest_eq_of_strict_max {l : List SlaDef} {d : SlaDef} (hd : d ∈ l)
    (hmax : ∀ x ∈ l, x ≠ d → x.created_at < d.created_at) : pickLatest l = some d := by
  cases hp : pickLatest l with
  | none =>
    rw [pickLatest_eq_none] at hp
    subst hp
    simp at hd
  | some b =>
    by_cases hbd : b = d
    · exact congrArg some hbd
    · have h1 := pickLatest_le hp d hd
      have h2 := hmax b (pickLatest_mem hp) hbd
      omega

/-! ### Claims C6, C7 (SLA tracker) -/

/-- Claim C6: with an applicable SLA definition, `get_ticket_sla_status`
computes `expected_response_time = created_at + response_time_minutes` in
wall-clock minutes, and when no first response is recorded it reports a
response violation exactly when `now` is past that deadline, with
`violation_minutes` the integer number of elapsed minutes past it. -/
theorem claim_C6_response_deadline (t : TicketRow) (db : Db) (now : Int) (d : SlaDef)
    (hd : resolveSla t db = some d) (hfr : t.first_response_at = none) :
    (getTicketSlaStatus t db now).expectedResponse
        = some (t.created_at + 60 * d.response_time_minutes)
    ∧ ((getTicketSlaStatus t db now).respViolation.isSome
        ↔ t.created_at + 60 * d.response_time_minutes < now)
    ∧ (∀ v, (getTicketSlaStatus t db now).respViolation = some v →
        v.violation_minutes = (now - (t.created_at + 60 * d.response_time_minutes)).tdiv 60
        ∧ v.expected_time = t.created_at + 60 * d.response_time_minutes
        ∧ v.actual_time = none) := by
  have hrv : (getTicketSlaStatus t db now).respViolation
      = (if t.created_at + 60 * d.response_time_minutes < now then
          some ⟨t.created_at + 60 * d.response_time_minutes, none,
            (now - (t.created_at + 60 * d.response_time_minutes)).tdiv 60⟩
        else none) := by
    simp only [getTicketSlaStatus, hd, hfr, SlaStatus.respViolation]
  have her : (getTicketSlaStatus t db now).expectedResponse
      = some (t.created_at + 60 * d.response_time_minutes) := by
    simp only [getTicketSlaStatus, hd, SlaStatus.expectedResponse]
  refine ⟨her, ?_, ?_⟩
  · rw [hrv]
    split_ifs with h <;> simp [h]
  · intro v hv
    rw [hrv] at hv
    split_ifs at hv with h
    cases hv
    exact ⟨rfl, rfl, rfl⟩

/-- Witness for C6: a ticket created at 0 with a 60-minute response SLA,
queried 90 minutes later with no response recorded, is in violation by 30
minutes. -/
theorem claim_C6_witness :
    resolveSla ticketUrgent dbSlaUrgent = some slaUrgent60 ∧
    (getTicketSlaStatus ticketUrgent dbSlaUrgent 5400).respViolation.isSome = true ∧
    (getTicketSlaStatus ticketUrgent dbSlaUrgent 5400).respViolation
      = some ⟨3600, none, 30⟩ := by
  have h := claim_C6_response_deadline ticketUrgent dbSlaUrgent 5400 slaUrgent60
    (by decide) rfl
  refine ⟨by decide, ?_, by decide⟩
  have : (3600 : Int) < 5400 := by norm_num
  simpa using h.2.1.mpr (by decide)

/-- Claim C7: `get_ticket_sla_status` resolves the SLA definition by preferring
the ticket's bound, active `sla_id`; when the binding is absent or resolves to
no active definition it falls back to the most-recently-created active
definition for the ticket's priority; and when neither exists it returns the
structured `notDefined` result (the embedding is a total function — no
exception). -/
theorem claim_C7_sla_resolution (t : TicketRow) (db : Db) (now : Int) :
    (∀ i d, t.sla_id = some i → d ∈ db.slaDefs → d.id = i → d.is_active = true →
      (∀ d2 ∈ db.slaDefs, d2.id = i → d2.is_active = true → d2 = d) →
      resolveSla t db = some d)
    ∧ (∀ d, t.sla_id = none → d ∈ db.slaDefs → d.is_active = true →
      d.priority = t.priority →
      (∀ d2 ∈ db.slaDefs, d2.is_active = true → d2.priority = t.priority → d2 ≠ d →
        d2.created_at < d.created_at) →
      resolveSla t db = some d)
    ∧ (∀ i d, t.sla_id = some i →
      (∀ d2 ∈ db.slaDefs, d2.id = i → d2.is_active = false) →
      d ∈ db.slaDefs → d.is_active = true → d.priority = t.priority →
      (∀ d2 ∈ db.slaDefs, d2.is_active = true → d2.priority = t.priority → d2 ≠ d →
        d2.created_at < d.created_at) →
      resolveSla t db = some d)
    ∧ (t.sla_id = none →
      (∀ d2 ∈ db.slaDefs, d2.priority = t.priority → d2.is_active = false) →
      getTicketSlaStatus t db now = SlaStatus.notDefined) := by
  have fallback : ∀ d : SlaDef, d ∈ db.slaDefs → d.is_active = true →
      d.priority = t.priority →
      (∀ d2 ∈ db.slaDefs, d2.is_active = true → d2.priority = t.priority → d2 ≠ d →
        d2.created_at < d.created_at) →
      latestActiveSla t.priority db = some d := by
    intro d hmem hact hpri hmax
    unfold latestActiveSla
    apply pickLatest_eq_of_strict_max
    · refine List.mem_filter.mpr ⟨hmem, ?_⟩
      simp [hpri, hact]
    · intro x hx hxd
      have hx2 := List.mem_filter.mp hx
      have hxp : x.priority = t.priority := by
        have := hx2.2
        simp only [Bool.and_eq_true, beq_iff_eq] at this
        exact this.1
      have hxa : x.is_active = true := by
        have := hx2.2
        simp only [Bool.and_eq_true, beq_iff_eq] at this
        exact this.2
      exact hmax x hx2.1 hxa hxp hxd
  refine ⟨?_, ?_, ?_, ?_⟩
  · intro i d hsla hmem hid hact hu
    have hfind : slaById i db = some d := by
      unfold slaById
      apply find?_eq_some_of_unique hmem
      · simp [hid, hact]
      · intro b hb hpb
        simp only [Bool.and_eq_true, beq_iff_eq] at hpb
        exact hu b hb hpb.1 hpb.2
    simp [resolveSla, hsla, hfind]
  · intro d hsla hmem hact hpri hmax
    simp [resolveSla, hsla, fallback d hmem hact hpri hmax]
  · intro i d hsla hnone hmem hact hpri hmax
    have hfind : slaById i db = none := by
      unfold slaById
      rw [List.find?_eq_none]
      intro b hb
      simp only [Bool.and_eq_true, beq_iff_eq, not_and]
      intro hbid
      simp [hnone b hb hbid]
    simp [resolveSla, hsla, hfind, fallback d hmem hact hpri hmax]
  · intro hsla hnone
    have hlat : latestActiveSla t.priority db = none := by
      unfold latestActiveSla
      rw [pickLatest_eq_none, List.filter_eq_nil_iff]
      intro a ha
      simp only [Bool.and_eq_true, beq_iff_eq, not_and]
      intro hap
      simp [hnone a ha hap]
    have : resolveSla t db = none := by
      simp [resolveSla, hsla, hlat]
    simp [getTicketSlaStatus, this]

/-- Witness for C7, on the three-definition store: a ticket bound to the older
active definition keeps it; an unbound ticket gets the newest active `high`
definition; a ticket bound to the inactive definition falls back to that same
newest one; and an `urgent` ticket (no active urgent definition) gets the
structured `notDefined` result. -/
theorem claim_C7_witness :
    resolveSla ticketBoundHigh dbSlaMulti = some slaHighOld ∧
    resolveSla ticketFreeHigh dbSlaMulti = some slaHighNew ∧
    resolveSla ticketBoundOff dbSlaMulti = some slaHighNew ∧
    getTicketSlaStatus ticketFreeUrgent dbSlaMulti 5400 = SlaStatus.notDefined := by
  refine ⟨?_, ?_, ?_, ?_⟩
  · exact (claim_C7_sla_resolution ticketBoundHigh dbSlaMulti 5400).1 1 slaHighOld
      rfl (by decide) rfl rfl (by decide)
  · exact (claim_C7_sla_resolution ticketFreeHigh dbSlaMulti 5400).2.1 slaHighNew
      rfl (by decide) rfl rfl (by decide)
  · exact (claim_C7_sla_resolution ticketBoundOff dbSlaMulti 5400).2.2.1 3 slaHighNew
      rfl (by decide) (by decide) rfl rfl (by decide)
  · exact (claim_C7_sla_resolution ticketFreeUrgent dbSlaMulti 5400).2.2.2
      rfl (by decide)

/-! ### Helper lemmas: intake pipeline and routing state -/

/-- The filter block is skipped when filtering is disabled, the sender is
registered, or the classifier does not flag the email. -/
theorem filteredOut_false_of (o : ReOracle) (ml : Option MlPrediction)
    (cfg : AppSettings) (db : Db) (e : ParsedEmail)
    (h : cfg.spamFilterEnabled = false ∨ isRegisteredUser db e.from_email = true ∨
      shouldFilter o ml e cfg.filterPromotions = false) :
    filteredOut o ml cfg db e = false := by
  unfold filteredOut
  rcases h with h | h | h <;> simp [h]

theorem appendEmailArtifacts_routingLog (acct : String) (e : ParsedEmail) (tid : Nat)
    (db : Db) : (appendEmailArtifacts acct e tid db).routingLog = db.routingLog := rfl

theorem appendEmailArtifacts_tickets (acct : String) (e : ParsedEmail) (tid : Nat)
    (db : Db) : (appendEmailArtifacts acct e tid db).tickets = db.tickets := rfl

theorem createTicketFromEmail_fst (now : Int) (e : ParsedEmail) (db : Db) :
    (createTicketFromEmail now e db).1 = db.nextId := rfl

theorem createTicketFromEmail_routingLog (now : Int) (e : ParsedEmail) (db : Db) :
    (createTicketFromEmail now e db).2.routingLog = db.routingLog := rfl

/-- Searching by id commutes with mapping an id- and subject-preserving
function, up to the subject projection. -/
theorem find?_map_subject {n : Nat} (f : TicketRow → TicketRow)
    (hid : ∀ x, (f x).id = x.id) (hs : ∀ x, (f x).subject = x.subject) :
    ∀ l : List TicketRow,
      ((l.map f).find? (fun x => x.id == n)).map TicketRow.subject
        = (l.find? (fun x => x.id == n)).map TicketRow.subject := by
  intro l
  induction l with
  | nil => rfl
  | cons a as ih =>
    simp only [List.map_cons]
    cases ha : (a.id == n) with
    | true =>
      have hfa : ((f a).id == n) = true := by rw [hid]; exact ha
      simp only [List.find?_cons, ha, hfa]
      simp [hs]
    | false =>
      have hfa : ((f a).id == n) = false := by rw [hid]; exact ha
      simp only [List.find?_cons, ha, hfa]
      exact ih

/-- A ticket update rewrites the searched row through `g`. -/
theorem find?_updateTickets {tid : Nat} (g : TicketRow → TicketRow)
    (hg : ∀ x, (g x).id = x.id) :
    ∀ (l : List TicketRow) (t : TicketRow),
      l.find? (fun x => x.id == tid) = some t →
      (updateTickets tid g l).find? (fun x => x.id == tid) = some (g t) := by
  intro l
  induction l with
  | nil => intro t h; simp at h
  | cons a as ih =>
    intro t h
    simp only [List.find?_cons] at h
    simp only [updateTickets, List.map_cons]
    cases ha : (a.id == tid) with
    | true =>
      rw [ha] at h
      injection h with h2
      subst h2
      have hga : ((g a).id == tid) = true := by rw [hg]; exact ha
      simp only [ha, if_true, List.find?_cons, hga]
    | false =>
      rw [ha] at h
      simp only [ha, Bool.false_eq_true, if_false, List.find?_cons]
      exact ih t h

theorem updateTickets_find?_subject {n tid : Nat} (g : TicketRow → TicketRow)
    (hgid : ∀ x, (g x).id = x.id) (hgs : ∀ x, (g x).subject = x.subject)
    (l : List TicketRow) :
    ((updateTickets tid g l).find? (fun x => x.id == n)).map TicketRow.subject
      = (l.find? (fun x => x.id == n)).map TicketRow.subject := by
  unfold updateTickets
  apply find?_map_subject
  · intro x
    by_cases hx : (x.id == tid) = true <;> simp [hx, hgid]
  · intro x
    by_cases hx : (x.id == tid) = true <;> simp [hx, hgs]

theorem applyRuleAction_routingLog (now : Int) (r : RoutingRule) (tid : Nat) (db : Db) :
    (applyRuleAction now r tid db).2.routingLog = db.routingLog := by
  simp only [applyRuleAction]
  repeat' split
  all_goals rfl

theorem applyRuleAction_tickets_subject (now : Int) (r : RoutingRule) (tid : Nat)
    (db : Db) (n : Nat) :
    (((applyRuleAction now r tid db).2.tickets.find? (fun x => x.id == n)).map
      TicketRow.subject)
      = ((db.tickets.find? (fun x => x.id == n)).map TicketRow.subject) := by
  simp only [applyRuleAction]
  repeat' split
  all_goals dsimp only
  all_goals first
    | rfl
    | (apply updateTickets_find?_subject <;> intro x <;> rfl)

theorem runRules_routingLog (now : Int) (tid : Nat) (s c cx pr : String)
    (ids : List Nat) :
    ∀ (rs : List RoutingRule) (db : Db) (acts : List ActionRec),
      (runRules now tid s c cx pr ids rs db acts).2.routingLog = db.routingLog := by
  intro rs
  induction rs with
  | nil => intro db acts; rfl
  | cons r rs ih =>
    intro db acts
    simp only [runRules]
    split
    · rw [ih]
      exact applyRuleAction_routingLog now r tid db
    · exact ih db acts

theorem runRules_tickets_subject (now : Int) (tid : Nat) (s c cx pr : String)
    (ids : List Nat) (n : Nat) :
    ∀ (rs : List RoutingRule) (db : Db) (acts : List ActionRec),
      (((runRules now tid s c cx pr ids rs db acts).2.tickets.find?
        (fun x => x.id == n)).map TicketRow.subject)
        = ((db.tickets.find? (fun x => x.id == n)).map TicketRow.subject) := by
  intro rs
  induction rs with
  | nil => intro db acts; rfl
  | cons r rs ih =>
    intro db acts
    simp only [runRules]
    split
    · rw [ih]
      exact applyRuleAction_tickets_subject now r tid db n
    · exact ih db acts

/-- Every invocation of the routing engine appends exactly its ticket id to
the ghost log. -/
theorem applyRoutingRules_routingLog (now : Int) (tid : Nat) (org : Option String)
    (db : Db) :
    (applyRoutingRules now tid org db).2.routingLog = db.routingLog ++ [tid] := by
  simp only [applyRoutingRules]
  split
  · rfl
  · split
    · rfl
    · rw [runRules_routingLog]

/-- The routing engine never changes any ticket's subject. -/
theorem applyRoutingRules_tickets_subject (now : Int) (tid : Nat)
    (org : Option String) (db : Db) (n : Nat) :
    (((applyRoutingRules now tid org db).2.tickets.find? (fun x => x.id == n)).map
      TicketRow.subject)
      = ((db.tickets.find? (fun x => x.id == n)).map TicketRow.subject) := by
  simp only [applyRoutingRules]
  split
  · rfl
  · split
    · rfl
    · rw [runRules_tickets_subject]

/-! ### Claim C1 (idempotent duplicate handling) -/

/-- Claim C1, amended: for every inbound email with a *non-empty* `message_id`
already present in the email-message store, and which the spam filter does not
drop (filtering disabled, registered sender, or not classified as
spam/filtered promotion), processing it again creates no new ticket and no new
message record — the store is returned unchanged — and the call returns the
ticket id recorded for that `message_id`, i.e. the id the first processing
returned.  (As stated the claim is false on two edges: an empty `message_id`
skips the duplicate check entirely, and a spam-classified duplicate from an
unregistered sender returns `None` before the duplicate check — see the
counterexample for the first.) -/
theorem claim_C1_duplicate_idempotent (o : ReOracle) (ml : Option MlPrediction)
    (cfg : AppSettings) (now : Int) (acct : String) (e : ParsedEmail) (db : Db)
    (row : EmailMessageRow) (tid : Nat)
    (hmid : e.message_id ≠ "")
    (hrow : db.emailMessages.find? (fun m => m.message_id == e.message_id) = some row)
    (htid : row.ticket_id = some tid)
    (hpass : cfg.spamFilterEnabled = false ∨ isRegisteredUser db e.from_email = true ∨
      shouldFilter o ml e cfg.filterPromotions = false) :
    processEmailToTicket o ml cfg now acct e db = (some tid, db) := by
  have hf := filteredOut_false_of o ml cfg db e hpass
  have hmb : (e.message_id == "") = false := beq_eq_false_iff_ne.mpr hmid
  simp only [processEmailToTicket, hf, Bool.false_eq_true, if_false, dedupLookup, hmb,
    hrow, htid]

/-- Witness for the amended C1: re-delivering `dup-1` (already stored for
ticket 7) by the registered sender returns ticket 7 and leaves the store
untouched. -/
theorem claim_C1_witness :
    exEmailDup.message_id ≠ "" ∧
    isRegisteredUser dbDup exEmailDup.from_email = true ∧
    processEmailToTicket noHitOracle none cfgDefault 0 "acct" exEmailDup dbDup
      = (some 7, dbDup) := by
  refine ⟨by decide, by decide, ?_⟩
  exact claim_C1_duplicate_idempotent noHitOracle none cfgDefault 0 "acct" exEmailDup
    dbDup
    { id := 1, ticket_id := some 7, message_id := "dup-1",
      status := "received", direction := "inbound" }
    7 (by decide) (by decide) rfl (Or.inr (Or.inl (by decide)))

/-- Counterexample to claim C1 as stated: an email with `message_id = ""` is
processed once (creating ticket 1 and storing an email-message row whose
`message_id` — the empty string — is then present in the store), and
re-processing the identical email creates a *second* ticket (id 3) instead of
returning ticket 1, because the duplicate check is skipped for a falsy
`message_id` (line 78). -/
theorem claim_C1_counterexample :
    ((processEmailToTicket noHitOracle none cfgDefault 0 "acct" exEmailNoMid
        dbAlice).2.emailMessages.any
      (fun m => m.message_id == exEmailNoMid.message_id)) = true ∧
    (processEmailToTicket noHitOracle none cfgDefault 0 "acct" exEmailNoMid dbAlice).1
      = some 1 ∧
    (processEmailToTicket noHitOracle none cfgDefault 0 "acct" exEmailNoMid
        (processEmailToTicket noHitOracle none cfgDefault 0 "acct" exEmailNoMid
          dbAlice).2).1 = some 3 ∧
    ((processEmailToTicket noHitOracle none cfgDefault 0 "acct" exEmailNoMid
        (processEmailToTicket noHitOracle none cfgDefault 0 "acct" exEmailNoMid
          dbAlice).2).2.tickets.length) = 2 := by
  exact ⟨by decide, by decide, by decide, by decide⟩

/-! ### Claim C8 (subject normalization) -/

theorem dropWhile_pySpace_idem :
    ∀ l : List Char, (l.dropWhile pySpaceChar).dropWhile pySpaceChar
      = l.dropWhile pySpaceChar := by
  intro l
  induction l with
  | nil => rfl
  | cons a as ih =>
    cases ha : pySpaceChar a with
    | true => simp only [List.dropWhile_cons, ha]; exact ih
    | false => simp [List.dropWhile_cons, ha]

theorem pyStripList_dropWhile (l : List Char) :
    pyStripList (l.dropWhile pySpaceChar) = pyStripList l := by
  unfold pyStripList
  rw [dropWhile_pySpace_idem]

/-- Stripping one leading `Re: ` marker: the regex consumes the marker and the
whitespace after it, and `.strip()` does the rest — no repetition. -/
theorem cleanSubject_re (s : String) : cleanSubject ("Re: " ++ s) = pyStrip s := by
  have hdata : ("Re: " ++ s).toList = 'R' :: 'e' :: ':' :: ' ' :: s.toList := rfl
  have hlen : subjectDropLen ('R' :: 'e' :: ':' :: ' ' :: s.toList) = some 3 := by
    simp +decide [subjectDropLen]
  unfold cleanSubject
  rw [hdata]
  simp only [hlen]
  show (⟨pyStripList ((' ' :: s.toList).dropWhile pySpaceChar)⟩ : String) = pyStrip s
  have hsp : pySpaceChar ' ' = true := by decide
  rw [List.dropWhile_cons, hsp]
  simp only [if_true]
  exact congrArg String.mk (pyStripList_dropWhile s.toList)

/-- Stripping one leading `Fwd: ` marker. -/
theorem cleanSubject_fwd (s : String) : cleanSubject ("Fwd: " ++ s) = pyStrip s := by
  have hdata : ("Fwd: " ++ s).toList = 'F' :: 'w' :: 'd' :: ':' :: ' ' :: s.toList := rfl
  have hlen : subjectDropLen ('F' :: 'w' :: 'd' :: ':' :: ' ' :: s.toList) = some 4 := by
    simp +decide [subjectDropLen]
  unfold cleanSubject
  rw [hdata]
  simp only [hlen]
  show (⟨pyStripList ((' ' :: s.toList).dropWhile pySpaceChar)⟩ : String) = pyStrip s
  have hsp : pySpaceChar ' ' = true := by decide
  rw [List.dropWhile_cons, hsp]
  simp only [if_true]
  exact congrArg String.mk (pyStripList_dropWhile s.toList)

/-- Claim C8, amended: a new ticket created from an email stores as subject the
original subject with exactly *one* leading `Re:` / `Fwd:` / `Fw:` / `F:`
marker (case-insensitive) and its following whitespace removed, then trimmed
(`cleanSubject`); repeated markers are *not* stripped — `Re: Fwd: X` is stored
as `Fwd: X`, not `X` (the `re.sub` pattern is anchored and replaced at most
once, see the counterexample). -/
theorem claim_C8_subject_normalization (o : ReOracle) (ml : Option MlPrediction)
    (cfg : AppSettings) (now : Int) (acct : String) (e : ParsedEmail) (db : Db)
    (hen : cfg.spamFilterEnabled = true)
    (hpass : isRegisteredUser db e.from_email = true ∨
      shouldFilter o ml e cfg.filterPromotions = false)
    (hfresh : dedupLookup db e = none)
    (hnorep : resolveReply db e.in_reply_to = none)
    (hclean : cleanSubject e.subject ≠ "")
    (hid : db.tickets.find? (fun x => x.id == db.nextId) = none) :
    (((processEmailToTicket o ml cfg now acct e db).2.tickets.find?
        (fun x => x.id == db.nextId)).map TicketRow.subject)
      = some (cleanSubject e.subject)
    ∧ (∀ s, cleanSubject ("Re: " ++ s) = pyStrip s)
    ∧ (∀ s, cleanSubject ("Fwd: " ++ s) = pyStrip s) := by
  refine ⟨?_, cleanSubject_re, cleanSubject_fwd⟩
  have hf := filteredOut_false_of o ml cfg db e (Or.inr hpass)
  have hcb : (cleanSubject e.subject == "") = false := beq_eq_false_iff_ne.mpr hclean
  have hnewsubj :
      (((createTicketFromEmail now e db).2.tickets).find?
        (fun x => x.id == db.nextId)).map TicketRow.subject
      = some (cleanSubject e.subject) := by
    simp only [createTicketFromEmail]
    rw [List.find?_append, hid]
    simp [hcb]
  simp only [processEmailToTicket, hf, Bool.false_eq_true, if_false, hfresh, hnorep,
    hen, Bool.not_true]
  cases hr : (e.in_reply_to == "") with
  | true =>
    simp only [hr, if_true]
    rw [applyRoutingRules_tickets_subject, appendEmailArtifacts_tickets]
    exact hnewsubj
  | false =>
    simp only [hr, Bool.false_eq_true, if_false]
    rw [appendEmailArtifacts_tickets]
    exact hnewsubj

/-- Witness for the amended C8: processing the fresh email with subject
`Re: Fwd: X` stores the ticket subject `Fwd: X` — one marker stripped. -/
theorem claim_C8_witness :
    cleanSubject exEmailRefwd.subject = "Fwd: X" ∧
    (((processEmailToTicket noHitOracle none cfgDefault 0 "a" exEmailRefwd
        dbAlice).2.tickets.find? (fun x => x.id == dbAlice.nextId)).map
      TicketRow.subject) = some "Fwd: X" := by
  have h := claim_C8_subject_normalization noHitOracle none cfgDefault 0 "a"
    exEmailRefwd dbAlice rfl (Or.inl (by decide)) (by decide) (by decide)
    (by decide) rfl
  refine ⟨by decide, ?_⟩
  rw [h.1]
  decide

/-- Counterexample to claim C8 as stated: the subject `Re: Fwd: X` is stored
as `Fwd: X`, not `X` — only the first marker is removed. -/
theorem claim_C8_counterexample :
    cleanSubject "Re: Fwd: X" = "Fwd: X" ∧
    (((processEmailToTicket noHitOracle none cfgDefault 0 "a" exEmailRefwd
        dbAlice).2.tickets.map (fun t => t.subject)) = ["Fwd: X"]) ∧
    ("Fwd: X" : String) ≠ "X" := by
  exact ⟨by decide, by decide, by decide⟩

/-! ### Claim C9 (when routing is triggered) -/

/-- Claim C9, amended: the Routing Engine is *not* triggered for every newly
created ticket.  On the email path it is invoked, exactly once and against the
new ticket, only when the email has no `in_reply_to`; a new ticket created
from an email whose `in_reply_to` is set but unresolvable gets no routing.  On
the web-form path routing runs only when the created ticket has an
`organization_id`, and the insert never sets one, so a newly created web
ticket has `organization_id = none` and routing is not invoked (its return
value does reflect mutations by reloading, but only in that unreached
branch). -/
theorem claim_C9_routing_trigger (o : ReOracle) (ml : Option MlPrediction)
    (cfg : AppSettings) (now : Int) (acct : String) (e : ParsedEmail) (db : Db)
    (hen : cfg.spamFilterEnabled = true)
    (hpass : isRegisteredUser db e.from_email = true ∨
      shouldFilter o ml e cfg.filterPromotions = false)
    (hfresh : dedupLookup db e = none) :
    (e.in_reply_to = "" →
      (processEmailToTicket o ml cfg now acct e db).1 = some db.nextId ∧
      (processEmailToTicket o ml cfg now acct e db).2.routingLog
        = db.routingLog ++ [db.nextId])
    ∧ (e.in_reply_to ≠ "" → resolveReply db e.in_reply_to = none →
      (processEmailToTicket o ml cfg now acct e db).1 = some db.nextId ∧
      (processEmailToTicket o ml cfg now acct e db).2.routingLog = db.routingLog)
    ∧ (∀ ctx subj msg rp uid,
      db.tickets.find? (fun t => t.context == ctx && t.subject == subj
        && t.status == "open" && t.user_id == some uid) = none →
      (createOrContinueTicket now ctx subj msg rp uid db).1.organization_id = none ∧
      (createOrContinueTicket now ctx subj msg rp uid db).2.routingLog
        = db.routingLog) := by
  have hf := filteredOut_false_of o ml cfg db e (Or.inr hpass)
  refine ⟨?_, ?_, ?_⟩
  · intro hr
    have hrb : (e.in_reply_to == "") = true := beq_iff_eq.mpr hr
    have hnorep : resolveReply db e.in_reply_to = none := by
      simp [resolveReply, hrb]
    simp only [processEmailToTicket, hf, Bool.false_eq_true, if_false, hfresh,
      hnorep, hen, Bool.not_true, hrb, if_true]
    refine ⟨rfl, ?_⟩
    rw [applyRoutingRules_routingLog, appendEmailArtifacts_routingLog,
      createTicketFromEmail_routingLog, createTicketFromEmail_fst]
  · intro hr hnorep
    have hrb : (e.in_reply_to == "") = false := beq_eq_false_iff_ne.mpr hr
    simp only [processEmailToTicket, hf, Bool.false_eq_true, if_false, hfresh,
      hnorep, hen, Bool.not_true, hrb]
    exact ⟨rfl, rfl⟩
  · intro ctx subj msg rp uid hweb
    simp only [createOrContinueTicket, hweb]
    exact ⟨rfl, rfl⟩

/-- Witness for the amended C9, against the store with one matching urgent
rule: the no-reply email triggers routing once on the new ticket (ghost log
`[1]`); the dangling-reply email triggers none; a new web-form ticket has no
organization and triggers none. -/
theorem claim_C9_witness :
    (processEmailToTicket noHitOracle none cfgDefault 0 "a" exEmailNoReply
      dbRuleAlice).2.routingLog = [1] ∧
    (processEmailToTicket noHitOracle none cfgDefault 0 "a" exEmailDanglingReply
      dbRuleAlice).2.routingLog = [] ∧
    (createOrContinueTicket 0 "web" "s" "m" none 5 dbRuleAlice).1.organization_id
      = none ∧
    (createOrContinueTicket 0 "web" "s" "m" none 5 dbRuleAlice).2.routingLog = [] := by
  have h1 := (claim_C9_routing_trigger noHitOracle none cfgDefault 0 "a"
    exEmailNoReply dbRuleAlice rfl (Or.inl (by decide)) (by decide)).1 rfl
  have h2 := (claim_C9_routing_trigger noHitOracle none cfgDefault 0 "a"
    exEmailDanglingReply dbRuleAlice rfl (Or.inl (by decide)) (by decide)).2.1
    (by decide) (by decide)
  have h3 := (claim_C9_routing_trigger noHitOracle none cfgDefault 0 "a"
    exEmailDanglingReply dbRuleAlice rfl (Or.inl (by decide)) (by decide)).2.2
    "web" "s" "m" none 5 (by decide)
  exact ⟨h1.2, h2.2, h3.1, h3.2⟩

/-- Counterexample to claim C9 as stated: processing the dangling-reply email
creates ticket 1, yet the routing engine is never invoked (empty ghost log)
and the ticket keeps priority `medium` even though the store holds an active
unconditional rule that sets priority `urgent` — as invoking routing on the
resulting store shows. -/
theorem claim_C9_counterexample :
    (processEmailToTicket noHitOracle none cfgDefault 0 "a" exEmailDanglingReply
      dbRuleAlice).1 = some 1 ∧
    (processEmailToTicket noHitOracle none cfgDefault 0 "a" exEmailDanglingReply
      dbRuleAlice).2.routingLog = [] ∧
    ((processEmailToTicket noHitOracle none cfgDefault 0 "a" exEmailDanglingReply
      dbRuleAlice).2.tickets.map (fun t => t.priority)) = ["medium"] ∧
    ((applyRoutingRules 0 1 none
      (processEmailToTicket noHitOracle none cfgDefault 0 "a" exEmailDanglingReply
        dbRuleAlice).2).2.tickets.map (fun t => t.priority)) = ["urgent"] := by
  exact ⟨by decide, by decide, by decide, by decide⟩

/-! ### Claim C2 (every matching rule applies; lowest priority number wins) -/

/-- Claim C2: with two active matching `set_priority` rules (stored in either
order; here lower-priority-number first) both rules are applied — evaluation
is not first-match-wins — in descending rule-priority order, each action
writing an absolute value; the final ticket priority is the value set by the
rule with the *lowest* priority number, whose later write wins, and both
actions are reported in evaluation order. -/
theorem claim_C2_lowest_priority_wins (now : Int) (tid : Nat) (t : TicketRow)
    (r1 r2 : RoutingRule) (db : Db)
    (ht : db.tickets.find? (fun x => x.id == tid) = some t)
    (horg : t.organization_id = none)
    (hrules : db.routingRules = [r2, r1])
    (ha1 : r1.is_active = true) (ha2 : r2.is_active = true)
    (hp : r2.priority < r1.priority)
    (hm1 : r1.keywords = [] ∧ r1.issue_types = [] ∧ r1.tags = [] ∧
      r1.contexts = [] ∧ r1.priorities = [])
    (hm2 : r2.keywords = [] ∧ r2.issue_types = [] ∧ r2.tags = [] ∧
      r2.contexts = [] ∧ r2.priorities = [])
    (hact1 : r1.action_type = "set_priority") (hact2 : r2.action_type = "set_priority")
    (hv1 : validPriorityValue (strLower r1.action_value) = true)
    (hv2 : validPriorityValue (strLower r2.action_value) = true) :
    (((applyRoutingRules now tid none db).2.tickets.find? (fun x => x.id == tid)).map
      TicketRow.priority) = some (strLower r2.action_value)
    ∧ ((applyRoutingRules now tid none db).1.actions.map (fun a => a.rule_id))
      = [r1.id, r2.id]
    ∧ (applyRoutingRules now tid none db).1.rulesEvaluated = 2
    ∧ (applyRoutingRules now tid none db).1.rulesMatched = 2 := by
  have hnp : ¬(r1.priority < r2.priority) := by omega
  have hactive : db.routingRules.filter (fun r => r.is_active) = [r2, r1] := by
    rw [hrules]; simp [ha1, ha2]
  have hsort : sortByPriorityDesc [r2, r1] = [r1, r2] := by
    simp [sortByPriorityDesc, insertByPriorityDesc, hnp]
  have hmatch1 : ∀ (dbx : Db) (sx cx cxx px : String) (ids : List Nat),
      ruleMatches dbx sx cx cxx px ids r1 = true := by
    intro dbx sx cx cxx px ids
    simp [ruleMatches, hm1.1, hm1.2.1, hm1.2.2.1, hm1.2.2.2.1, hm1.2.2.2.2]
  have hmatch2 : ∀ (dbx : Db) (sx cx cxx px : String) (ids : List Nat),
      ruleMatches dbx sx cx cxx px ids r2 = true := by
    intro dbx sx cx cxx px ids
    simp [ruleMatches, hm2.1, hm2.2.1, hm2.2.2.1, hm2.2.2.2.1, hm2.2.2.2.2]
  have happ1 : ∀ dbx : Db, applyRuleAction now r1 tid dbx
      = (true, {dbx with tickets := (updateTickets tid
          (fun x => {x with priority := strLower r1.action_value, updated_at := some now})
          dbx.tickets)}) := by
    intro dbx
    simp +decide [applyRuleAction, hact1, hv1]
  have happ2 : ∀ dbx : Db, applyRuleAction now r2 tid dbx
      = (true, {dbx with tickets := (updateTickets tid
          (fun x => {x with priority := strLower r2.action_value, updated_at := some now})
          dbx.tickets)}) := by
    intro dbx
    simp +decide [applyRuleAction, hact2, hv2]
  have hrun : ∀ (dbx : Db) (sx cx cxx px : String) (ids : List Nat),
      runRules now tid sx cx cxx px ids [r1, r2] dbx []
      = ([⟨r1.id, r1.action_type, r1.action_value⟩,
          ⟨r2.id, r2.action_type, r2.action_value⟩],
         {dbx with tickets := (updateTickets tid
            (fun x => {x with priority := strLower r2.action_value, updated_at := some now})
            (updateTickets tid
              (fun x => {x with priority := strLower r1.action_value, updated_at := some now})
              dbx.tickets))}) := by
    intro dbx sx cx cxx px ids
    simp [runRules, hmatch1, hmatch2, happ1, happ2]
  have hcall : applyRoutingRules now tid none db
      = ({success := true,
          actions := [⟨r1.id, r1.action_type, r1.action_value⟩,
            ⟨r2.id, r2.action_type, r2.action_value⟩],
          rulesEvaluated := 2, rulesMatched := 2},
         {db with
            tickets := (updateTickets tid
              (fun x => {x with priority := strLower r2.action_value, updated_at := some now})
              (updateTickets tid
                (fun x => {x with priority := strLower r1.action_value, updated_at := some now})
                db.tickets)),
            routingLog := db.routingLog ++ [tid]}) := by
    simp only [applyRoutingRules, ht, hactive, horg, hsort, hrun]
    rfl
  have h1 : (updateTickets tid
      (fun x => {x with priority := strLower r1.action_value, updated_at := some now})
      db.tickets).find? (fun x => x.id == tid)
      = some {t with priority := strLower r1.action_value, updated_at := some now} :=
    find?_updateTickets
      (fun x => {x with priority := strLower r1.action_value, updated_at := some now})
      (fun x => rfl) db.tickets t ht
  have h2 : (updateTickets tid
      (fun x => {x with priority := strLower r2.action_value, updated_at := some now})
      (updateTickets tid
        (fun x => {x with priority := strLower r1.action_value, updated_at := some now})
        db.tickets)).find? (fun x => x.id == tid)
      = some {t with priority := strLower r2.action_value, updated_at := some now} :=
    find?_updateTickets
      (fun x => {x with priority := strLower r2.action_value, updated_at := some now})
      (fun x => rfl)
      (updateTickets tid
        (fun x => {x with priority := strLower r1.action_value, updated_at := some now})
        db.tickets)
      {t with priority := strLower r1.action_value, updated_at := some now} h1
  refine ⟨?_, ?_, ?_, ?_⟩
  · rw [hcall]
    show ((updateTickets tid _ (updateTickets tid _ db.tickets)).find?
      (fun x => x.id == tid)).map TicketRow.priority = some (strLower r2.action_value)
    rw [h2]
    rfl
  · rw [hcall]
    rfl
  · rw [hcall]
  · rw [hcall]

/-- Witness for C2: on the store holding the ticket and the rules
`[set Low (priority 5), set Urgent (priority 10)]`, both rules apply in the
order urgent-then-low and the final ticket priority is `low`. -/
theorem claim_C2_witness :
    (((applyRoutingRules 0 1 none dbTwoRules).2.tickets.find?
      (fun x => x.id == 1)).map TicketRow.priority) = some "low" ∧
    ((applyRoutingRules 0 1 none dbTwoRules).1.actions.map (fun a => a.rule_id))
      = [12, 11] ∧
    (applyRoutingRules 0 1 none dbTwoRules).1.rulesEvaluated = 2 ∧
    (applyRoutingRules 0 1 none dbTwoRules).1.rulesMatched = 2 := by
  have h := claim_C2_lowest_priority_wins 0 1
    { id := 1, subject := "s", context := "email" } ruleSetUrgent ruleSetLow
    dbTwoRules (by decide) rfl rfl rfl rfl (by decide)
    ⟨rfl, rfl, rfl, rfl, rfl⟩ ⟨rfl, rfl, rfl, rfl, rfl⟩ rfl rfl
    (by decide) (by decide)
  refine ⟨?_, ?_, h.2.2.1, h.2.2.2⟩
  · rw [h.1]; decide
  · rw [h.2.1]; decide
